import Mathlib

/-!
Shallow embedding of the article-ingestion pipeline of the crawleb repository
(src/crawleb/crawler/extractor.py, src/crawleb/crawler/crawler.py,
src/crawleb/database/database.py), together with theorems settling the
specification claims about it.

Python strings are modelled as Lean `String`, Python `None` as `Option.none`,
dictionaries with possibly-missing keys as nested `Option`, exceptions as
`Except`, and external collaborators (HTTP, HTML parsing libraries, the LLM
client, the random number generator, the clock) as explicit environment
records supplying their results.
-/

set_option maxRecDepth 100000

namespace Crawleb

/-! ### Python string and truthiness primitives -/

/-- Truthiness of an optional Python string: `None` and `""` are falsy. -/
def pyTruthy : Option String → Bool
  | none => false
  | some s => !(s == "")

/-- Python `a or b` for an optional string `a` and a string default `b`. -/
def pyOr (o : Option String) (d : String) : String :=
  match o with
  | none => d
  | some s => if s == "" then d else s

/-- Whether `pre` is a leading segment of `l` (character lists). -/
def startsList : List Char → List Char → Bool
  | [], _ => true
  | _ :: _, [] => false
  | a :: as, b :: bs => a == b && startsList as bs

/-- Whether `needle` occurs contiguously inside `hay` (character lists). -/
def subList (needle : List Char) : List Char → Bool
  | [] => needle.isEmpty
  | c :: rest => startsList needle (c :: rest) || subList needle rest

/-- Python `needle in hay` for strings: contiguous substring containment. -/
def strIn (needle hay : String) : Bool := subList needle.toList hay.toList

/-- Python `len(s)` (character count). -/
def pyLen (s : String) : Nat := s.toList.length

/-- Python `s.lower()` (ASCII case folding, which covers all strings the
source manipulates). -/
def pyLower (s : String) : String := String.mk (s.toList.map Char.toLower)

/-- Drop leading whitespace from a character list. -/
def dropWs (cs : List Char) : List Char := cs.dropWhile Char.isWhitespace

/-- Python `s.strip()`: remove leading and trailing whitespace. -/
def pyStrip (s : String) : String :=
  String.mk (((dropWs s.toList).reverse |> dropWs).reverse)

/-! ### Article Validator — `ContentExtractor.is_valid_article`
(src/crawleb/crawler/extractor.py, lines 392-436) -/

/-- A Python dict as seen by `is_valid_article`: each field is either absent
(`none`) or present with a value that is itself `None` (`some none`) or a
string (`some (some s)`). -/
structure PyRecord where
  url : Option (Option String)
  title : Option (Option String)
  content : Option (Option String)
deriving DecidableEq

/-- The fixed failure-sentinel substrings rejected by the validator
(extractor.py lines 405-412). -/
def errorIndicators : List String :=
  ["failed to extract", "content extraction failed", "no title extracted",
   "no content extracted", "extraction failed", "error:"]

/-- The `AttributeError` Python raises when `.lower()` is called on `None`. -/
def attributeError : String := "AttributeError"

/-- `is_valid_article(article_data)` (extractor.py lines 392-436).
`article_data.get('url')` defaults to `None`; `.get('title', '')` and
`.get('content', '')` default to `''` but pass a present `None` through, on
which `.lower()` raises `AttributeError` (title first, then content). -/
def is_valid_article (r : PyRecord) : Except String Bool :=
  if pyTruthy (r.url.getD none) then
    match r.title.getD (some ""), r.content.getD (some "") with
    | none, _ => .error attributeError
    | some _, none => .error attributeError
    | some t, some c =>
      if errorIndicators.any (fun ind =>
          strIn ind (pyLower t) || strIn ind (pyLower c)) then .ok false
      else if t == "" || c == "" then .ok false
      else if pyLen (pyStrip c) < 100 then .ok false
      else if pyLen (pyStrip t) < 10 then .ok false
      else .ok true
  else .ok false

/-- The claim's characterisation of validity, written from the spec's words:
URL present, no case-insensitive sentinel in title or body, both non-empty,
trimmed body length at least 100, trimmed title length at least 10. -/
def validSpec (urlv : Option String) (t c : String) : Bool :=
  pyTruthy urlv &&
  !(errorIndicators.any (fun ind =>
      strIn ind (pyLower t) || strIn ind (pyLower c))) &&
  !(t == "") && !(c == "") &&
  decide (100 ≤ pyLen (pyStrip c)) &&
  decide (10 ≤ pyLen (pyStrip t))

theorem valid_eq_strings (uo : Option (Option String)) (t c : String) :
    is_valid_article ⟨uo, some (some t), some (some c)⟩ =
      .ok (validSpec (uo.getD none) t c) := by
  unfold is_valid_article validSpec
  cases h1 : pyTruthy (uo.getD none) with
  | false => simp [h1]
  | true =>
    simp only [h1, if_true, Option.getD, Bool.true_and]
    by_cases h2 : (errorIndicators.any (fun ind =>
        strIn ind (pyLower t) || strIn ind (pyLower c))) = true
    · simp [h2]
    · simp only [eq_false_of_ne_true h2, if_false, Bool.not_false, Bool.true_and]
      by_cases h3 : (t == "" || c == "") = true
      · rcases Bool.or_eq_true_iff.mp h3 with h | h <;> simp [h3, h]
      · have h3t : (t == "") = false := by
          cases hh : (t == "") <;> simp_all
        have h3c : (c == "") = false := by
          cases hh : (c == "") <;> simp_all
        simp only [h3, if_false, h3t, h3c, Bool.not_false, Bool.true_and]
        by_cases h4 : pyLen (pyStrip c) < 100
        · simp [if_pos h4, Nat.not_le.mpr h4]
        · simp only [if_neg h4, decide_eq_true (Nat.not_lt.mp h4), Bool.true_and]
          by_cases h5 : pyLen (pyStrip t) < 10
          · simp [if_pos h5, Nat.not_le.mpr h5]
          · simp [if_neg h5, decide_eq_true (Nat.not_lt.mp h5)]

theorem valid_absent_title (uo : Option (Option String)) (co : Option String) :
    is_valid_article ⟨uo, none, co.map some⟩ = .ok false := by
  unfold is_valid_article
  cases h1 : pyTruthy (uo.getD none)
  · simp [h1]
  · cases co with
    | none =>
      simp only [h1, if_true, Option.map_none', Option.getD]
      simp [strIn, subList, errorIndicators]
    | some c =>
      simp only [h1, if_true, Option.map_some', Option.getD]
      by_cases h2 : (errorIndicators.any (fun ind =>
          strIn ind (pyLower "") || strIn ind (pyLower c))) = true
      · simp [h2]
      · simp [eq_false_of_ne_true h2]

theorem valid_absent_content (uo : Option (Option String)) (ti : Option String) :
    is_valid_article ⟨uo, ti.map some, none⟩ = .ok false := by
  unfold is_valid_article
  cases h1 : pyTruthy (uo.getD none)
  · simp [h1]
  · cases ti with
    | none =>
      simp only [h1, if_true, Option.map_none', Option.getD]
      simp [strIn, subList, errorIndicators]
    | some t =>
      simp only [h1, if_true, Option.map_some', Option.getD]
      by_cases h2 : (errorIndicators.any (fun ind =>
          strIn ind (pyLower t) || strIn ind (pyLower ""))) = true
      · simp [h2]
      · simp [eq_false_of_ne_true h2]

/-- C5: for every record whose title and body are strings, `is_valid_article`
returns true exactly when the URL is present, neither field contains a
case-insensitive sentinel substring, both are non-empty, the trimmed body has
at least 100 characters and the trimmed title at least 10; in particular a
9-character title with a 1000-character body is rejected, a 10-character
title with a 99-character body is rejected, and a 10-character title with a
100-character sentinel-free body is accepted. -/
theorem C5_validator_characterisation :
    (∀ (uo : Option (Option String)) (t c : String),
        is_valid_article ⟨uo, some (some t), some (some c)⟩ =
          .ok (validSpec (uo.getD none) t c)) ∧
    is_valid_article ⟨some (some "http://e.com/a"),
        some (some (String.mk (List.replicate 9 'a'))),
        some (some (String.mk (List.replicate 1000 'b')))⟩ = .ok false ∧
    is_valid_article ⟨some (some "http://e.com/a"),
        some (some (String.mk (List.replicate 10 'a'))),
        some (some (String.mk (List.replicate 99 'b')))⟩ = .ok false ∧
    is_valid_article ⟨some (some "http://e.com/a"),
        some (some (String.mk (List.replicate 10 'a'))),
        some (some (String.mk (List.replicate 100 'b')))⟩ = .ok true :=
  ⟨valid_eq_strings, rfl, rfl, rfl⟩

/-- C8 counterexample: a record whose title key is present with value `None`
(and whose URL is truthy) makes `is_valid_article` raise `AttributeError`
instead of returning a boolean, refuting the claim that it never raises on
null fields. -/
theorem C8_none_title_raises :
    is_valid_article ⟨some (some "http://e.com/a"), some none,
        some (some "real body text")⟩ = .error attributeError := rfl

/-- C8 amended: `is_valid_article` returns a boolean (never raises) whenever
the title and content fields are each absent or strings — an absent title or
absent body is treated as empty and the record is rejected — but a field
present with value `None` makes it raise `AttributeError` whenever the URL is
truthy. -/
theorem C8_validator_totality_boundary :
    (∀ (uo : Option (Option String)) (ti co : Option String),
        ∃ b, is_valid_article ⟨uo, ti.map some, co.map some⟩ = .ok b) ∧
    (∀ (uo : Option (Option String)) (co : Option String),
        is_valid_article ⟨uo, none, co.map some⟩ = .ok false) ∧
    (∀ (uo : Option (Option String)) (ti : Option String),
        is_valid_article ⟨uo, ti.map some, none⟩ = .ok false) ∧
    (∀ (u : String) (cf : Option (Option String)),
        is_valid_article ⟨some (some u), some none, cf⟩ =
          if u == "" then .ok false else .error attributeError) ∧
    (∀ (u t : String),
        is_valid_article ⟨some (some u), some (some t), some none⟩ =
          if u == "" then .ok false else .error attributeError) := by
  refine ⟨?_, valid_absent_title, valid_absent_content, ?_, ?_⟩
  · intro uo ti co
    cases ti with
    | none => exact ⟨false, valid_absent_title uo co⟩
    | some t =>
      cases co with
      | none => exact ⟨false, valid_absent_content uo (some t)⟩
      | some c => exact ⟨_, valid_eq_strings uo t c⟩
  · intro u cf
    unfold is_valid_article
    cases h : (u == "") <;> simp [pyTruthy, h]
  · intro u t
    unfold is_valid_article
    cases h : (u == "") <;> simp [pyTruthy, h]

/-! ### URL helpers — models of `urllib.parse` behaviour on http(s) URLs,
used by the extractor and discoverer -/

/-- Skip to the character list after the first `://`, if any. -/
def afterScheme : List Char → Option (List Char)
  | [] => none
  | ':' :: '/' :: '/' :: rest => some rest
  | _ :: rest => afterScheme rest

/-- Cut a character list at the first `?` or `#`. -/
def beforeQueryFrag (cs : List Char) : List Char :=
  cs.takeWhile (fun c => !(c == '?') && !(c == '#'))

/-- `urlparse(u).path` for the URL shapes the crawler handles. -/
def urlPath (u : String) : String :=
  match afterScheme u.toList with
  | some rest => String.mk (beforeQueryFrag (rest.dropWhile (fun c => !(c == '/'))))
  | none => String.mk (beforeQueryFrag u.toList)

/-- `urlparse(u).netloc` for the URL shapes the crawler handles. -/
def urlNetloc (u : String) : String :=
  match afterScheme u.toList with
  | some rest =>
    String.mk (rest.takeWhile (fun c => !(c == '/') && !(c == '?') && !(c == '#')))
  | none => ""

/-- Python `str.title()`: an alphabetic character is uppercased when the
previous character is not alphabetic and lowercased otherwise. -/
def titleChars : Bool → List Char → List Char
  | _, [] => []
  | prevAlpha, c :: rest =>
    if c.isAlpha then
      (if prevAlpha then c.toLower else c.toUpper) :: titleChars true rest
    else c :: titleChars false rest

/-- Python `s.title()`. -/
def pyTitleCase (s : String) : String := String.mk (titleChars false s.toList)

/-! ### `ContentExtractor._is_likely_article_url`
(src/crawleb/crawler/extractor.py, lines 199-237) -/

/-- The denylist of non-article path fragments (extractor.py lines 202-207). -/
def skipPatterns : List String :=
  ["/category/", "/tag/", "/author/", "/search/", "/page/",
   "/contact", "/about", "/privacy", "/terms", "/sitemap",
   ".pdf", ".jpg", ".png", ".gif", ".css", ".js",
   "/feed/", "/rss/", "/admin/", "/login", "/register"]

/-- The allowlist of article-like path fragments (extractor.py lines 215-222). -/
def articlePatterns : List String :=
  ["/article/", "/news/", "/blog/", "/post/", "/story/",
   "/content/", "/read/", "/view/",
   "/startups/", "/biotech/", "/enterprise/", "/transportation/",
   "/cloud/", "/ai/", "/fintech/", "/gaming/", "/mobile/",
   "/venture-capital/", "/hiring/", "/legal/", "/real-estate/"]

/-- Remainders reachable by the optional group `(/\d{1,2})?` of the date
regex: skip it, or consume `/` plus one digit, or `/` plus two digits. -/
def optDaySeg (cs : List Char) : List (List Char) :=
  let one : List (List Char) :=
    match cs with
    | '/' :: a :: rest => if a.isDigit then [rest] else []
    | _ => []
  let two : List (List Char) :=
    match cs with
    | '/' :: a :: b :: rest => if a.isDigit && b.isDigit then [rest] else []
    | _ => []
  cs :: (one ++ two)

/-- The date regex `/\d{4}(/\d{1,2})?(/\d{1,2})?/` matches starting at this
position. -/
def dateAt : List Char → Bool
  | '/' :: a :: b :: c :: d :: rest =>
    a.isDigit && b.isDigit && c.isDigit && d.isDigit &&
    (optDaySeg rest).any (fun r1 => (optDaySeg r1).any (fun r2 =>
      match r2 with
      | '/' :: _ => true
      | _ => false))
  | _ => false

/-- `re.search` of the date regex: a match starting at some position. -/
def dateSearch : List Char → Bool
  | [] => false
  | c :: rest => dateAt (c :: rest) || dateSearch rest

/-- A regex `\w` character (ASCII form) or a hyphen, the class `[\w-]`. -/
def isWordChar (c : Char) : Bool := c.isAlpha || c.isDigit || c == '_' || c == '-'

/-- The tail after a `/` matches `[\w-]+(-\d+)?/?$`: since `-` and digits are
in `[\w-]`, this is a non-empty word-hyphen run, optionally ending with `/`. -/
def slugFrom (cs : List Char) : Bool :=
  (!cs.isEmpty && cs.all isWordChar) ||
  (match cs.getLast? with
   | some '/' => !cs.dropLast.isEmpty && cs.dropLast.all isWordChar
   | _ => false)

/-- `re.search` of `/[\w-]+(-\d+)?/?$`. -/
def slugSearch : List Char → Bool
  | [] => false
  | '/' :: rest => slugFrom rest || slugSearch rest
  | _ :: rest => slugSearch rest

/-- `_is_likely_article_url(url)` (extractor.py lines 199-237). -/
def is_likely_article_url (url : String) : Bool :=
  let urlLower := pyLower url
  if skipPatterns.any (fun p => strIn p urlLower) then false
  else if articlePatterns.any (fun p => strIn p urlLower) then true
  else if dateSearch url.toList then true
  else if slugSearch url.toList then true
  else false

/-! ### Link Discoverer — `ContentExtractor.extract_articles_from_page`
(src/crawleb/crawler/extractor.py, lines 132-197).
BeautifulSoup parsing is abstracted as the lists of `href` values produced by
the selector pass and by the scan of all anchors; `urljoin` is supplied by
the environment. -/

/-- HTML as the discoverer observes it through BeautifulSoup. -/
structure PageData where
  selectedHrefs : List (Option String)
  allHrefs : List String
deriving DecidableEq

/-- External collaborators of the discoverer: the rate-limited fetch plus
parse (which may raise), and `urllib.parse.urljoin`. -/
structure DiscoverEnv where
  fetchPage : Except String PageData
  join : String → String → String

/-- Adding a URL to the Python `set`, modelled as order-of-first-insertion. -/
def dedupInsert (acc : List String) (x : String) : List String :=
  if x ∈ acc then acc else acc ++ [x]

/-- `extract_articles_from_page(url)` (extractor.py lines 132-197): on any
internal error returns `[url]`; otherwise collects selector-pass candidates
passing `_is_likely_article_url`, falling back to all same-host anchors when
the selector pass found none. -/
def extract_articles_from_page (env : DiscoverEnv) (url : String) : List String :=
  match env.fetchPage with
  | .error _ => [url]
  | .ok page =>
    let s1 := page.selectedHrefs.foldl (fun acc href? =>
      match href? with
      | none => acc
      | some href =>
        if href == "" then acc
        else
          let full := env.join url href
          if is_likely_article_url full then dedupInsert acc full else acc) []
    if s1.isEmpty then
      page.allHrefs.foldl (fun acc href =>
        if href == "" then acc
        else
          let full := env.join url href
          if urlNetloc full == urlNetloc url && is_likely_article_url full then
            dedupInsert acc full
          else acc) []
    else s1

theorem dedupInsert_nodup {l : List String} (h : l.Nodup) (x : String) :
    (dedupInsert l x).Nodup := by
  unfold dedupInsert
  split
  · exact h
  · next hx =>
    refine List.Nodup.append h (List.nodup_singleton x) ?_
    intro a ha hb
    rw [List.mem_singleton] at hb
    exact hx (hb ▸ ha)

theorem foldl_dedup_nodup {α : Type} (f : List String → α → List String)
    (hf : ∀ acc x, f acc x = acc ∨ ∃ y, f acc x = dedupInsert acc y)
    (L : List α) (acc : List String) (h : acc.Nodup) :
    (L.foldl f acc).Nodup := by
  induction L generalizing acc with
  | nil => exact h
  | cons a L ih =>
    have hstep : (f acc a).Nodup := by
      rcases hf acc a with h1 | ⟨y, h1⟩
      · rw [h1]; exact h
      · rw [h1]; exact dedupInsert_nodup h y
    exact ih _ hstep

/-- A discovery environment whose fetch succeeds but whose page has no
anchors at all. -/
def emptyPageEnv : DiscoverEnv := ⟨.ok ⟨[], []⟩, fun _ h => h⟩

/-- C6 counterexample: with a successful fetch of a page containing no
anchors, `extract_articles_from_page` returns the empty list, so the pipeline
receives zero candidates — refuting the claim that in every case it receives
at least one. -/
theorem C6_zero_candidates :
    extract_articles_from_page emptyPageEnv "https://example.com/news/" = [] := rfl

/-- C6 amended: `extract_articles_from_page` returns normally in all cases;
on any internal error it returns exactly the one-element fallback `[url]`,
and on success it returns a duplicate-free collection — which, when the page
yields no acceptable links, may be empty, so the pipeline is only guaranteed
a candidate in the error case. -/
theorem C6_discoverer_fallback_and_nodup (env : DiscoverEnv) (url : String) :
    (∀ e, env.fetchPage = .error e → extract_articles_from_page env url = [url]) ∧
    (extract_articles_from_page env url).Nodup := by
  constructor
  · intro e he
    unfold extract_articles_from_page
    rw [he]
  · unfold extract_articles_from_page
    cases henv : env.fetchPage with
    | error e => exact List.nodup_singleton url
    | ok page =>
      simp only
      have h1 : (page.selectedHrefs.foldl (fun acc href? =>
          match href? with
          | none => acc
          | some href =>
            if href == "" then acc
            else
              let full := env.join url href
              if is_likely_article_url full then dedupInsert acc full else acc)
          []).Nodup := by
        refine foldl_dedup_nodup _ ?_ _ _ List.nodup_nil
        intro acc x
        cases x with
        | none => exact Or.inl (by trivial)
        | some href =>
          by_cases hh : (href == "") = true
          · simp only [hh, if_true]
            exact Or.inl (by trivial)
          · simp only [eq_false_of_ne_true hh, if_false]
            by_cases hl : is_likely_article_url (env.join url href) = true
            · simp only [hl, if_true]
              exact Or.inr ⟨env.join url href, rfl⟩
            · simp only [eq_false_of_ne_true hl, if_false]
              exact Or.inl (by trivial)
      split
      · refine foldl_dedup_nodup _ ?_ _ _ List.nodup_nil
        intro acc href
        by_cases hh : (href == "") = true
        · simp only [hh, if_true]
          exact Or.inl (by trivial)
        · simp only [eq_false_of_ne_true hh, if_false]
          by_cases hl : (urlNetloc (env.join url href) == urlNetloc url &&
              is_likely_article_url (env.join url href)) = true
          · simp only [hl, if_true]
            exact Or.inr ⟨env.join url href, rfl⟩
          · simp only [eq_false_of_ne_true hl, if_false]
            exact Or.inl (by trivial)
      · exact h1

/-- A discovery environment whose fetch raises. -/
def errPageEnv : DiscoverEnv := ⟨.error "connection reset", fun _ h => h⟩

/-- Witness for the C6 amended theorem at a concrete failing environment. -/
theorem C6_discoverer_fallback_and_nodup_witness :
    extract_articles_from_page errPageEnv "https://example.com/" = ["https://example.com/"] ∧
    (extract_articles_from_page errPageEnv "https://example.com/").Nodup :=
  ⟨(C6_discoverer_fallback_and_nodup errPageEnv "https://example.com/").1
      "connection reset" rfl,
   (C6_discoverer_fallback_and_nodup errPageEnv "https://example.com/").2⟩

/-! ### Article Extractor — `ContentExtractor.extract_article_content`
(src/crawleb/crawler/extractor.py, lines 239-390).
The HTTP fetch, trafilatura, newspaper3k and the BeautifulSoup selector
probes are external collaborators supplied by the environment. -/

/-- The extracted article dictionary built by `extract_article_content`
(the `extracted_at` clock stamp, which nothing reads, is omitted). -/
structure ArticleData where
  url : String
  title : Option String
  author : Option String
  description : Option String
  pubDate : Option String
  content : Option String
deriving DecidableEq

/-- View an extractor result as the dict `is_valid_article` receives: every
key present, `None` values passed through. -/
def adRecord (a : ArticleData) : PyRecord :=
  ⟨some (some a.url), some a.title, some a.content⟩

/-- The fields of a parsed `newspaper.Article`: `title`, `meta_description`
and `text` default to the empty (falsy) string, `publish_date` to `None`. -/
structure NewspaperResult where
  title : String
  authors : List String
  meta_description : String
  publish_date : Option String
  text : String
deriving DecidableEq

/-- External collaborators of one `extract_article_content` call. `soupTitle`
and `soupContent` yield the stripped text of the first matching selector
(`none` when no element matches); `soupMetaDesc` and `soupAuthor` yield the
value that would be assigned, if any. -/
structure ExtractEnv where
  fetchHtml : Except String String
  traf : String → Except String (Option String)
  npParse : String → Except String NewspaperResult
  soupTitle : String → Option String
  soupContent : String → Option String
  soupMetaDesc : String → Option String
  soupAuthor : String → Option String
  npDownload : Except String NewspaperResult

/-- Collapse every whitespace run to a single space (`re.sub(r'\s+', ' ', s)`);
the flag records whether the previous character was whitespace. -/
def squeezeWs : Bool → List Char → List Char
  | _, [] => []
  | prevWs, c :: rest =>
    if c.isWhitespace then
      if prevWs then squeezeWs true rest
      else ' ' :: squeezeWs true rest
    else c :: squeezeWs false rest

/-- `re.sub(r'\s+', ' ', s).strip()` (extractor.py line 345). -/
def collapseWs (s : String) : String := pyStrip (String.mk (squeezeWs false s.toList))

/-- Truncation of over-long content (extractor.py lines 347-348). -/
def truncateContent (s : String) : String :=
  if 50000 < pyLen s then String.mk (s.toList.take 50000) ++ "..." else s

/-- `', '.join(authors[:3])` (extractor.py line 277). -/
def joinAuthors (authors : List String) : String :=
  String.intercalate ", " (authors.take 3)

/-- The newspaper3k metadata merge (extractor.py lines 267-290), given a
successfully parsed article. -/
def npMerge (a : ArticleData) (np : NewspaperResult) : ArticleData :=
  let b1 := if !(np.title == "") then { a with title := some np.title } else a
  let b2 := if !np.authors.isEmpty then { b1 with author := some (joinAuthors np.authors) } else b1
  let b3 := if !(np.meta_description == "") then { b2 with description := some np.meta_description } else b2
  let b4 := match np.publish_date with
    | some d => { b3 with pubDate := some d }
    | none => b3
  if !pyTruthy b4.content && !(np.text == "") then { b4 with content := some np.text } else b4

/-- The manual BeautifulSoup fallback (extractor.py lines 292-340), entered
when both title and content are still falsy. -/
def soupFallback (env : ExtractEnv) (html : String) (a : ArticleData) : ArticleData :=
  let b1 := match env.soupTitle html with
    | some t => { a with title := some t }
    | none => a
  let b2 := match env.soupContent html with
    | some c => { b1 with content := some c }
    | none => b1
  let b3 := if !pyTruthy b2.description then
      match env.soupMetaDesc html with
      | some d => { b2 with description := some d }
      | none => b2
    else b2
  if !pyTruthy b3.author then
    match env.soupAuthor html with
    | some au => { b3 with author := some au }
    | none => b3
  else b3

/-- Content cleanup (extractor.py lines 342-348). -/
def cleanupContent (a : ArticleData) : ArticleData :=
  if pyTruthy a.content then
    { a with content := some (truncateContent (collapseWs (a.content.getD ""))) }
  else a

/-- Title synthesis from the URL path (extractor.py lines 350-355). -/
def ensureTitle (url : String) (a : ArticleData) : ArticleData :=
  if !pyTruthy a.title then
    let seg := ((urlPath url).splitOn "/").getLastD ""
    let t := pyTitleCase (String.mk (seg.toList.map (fun c =>
      if c == '-' || c == '_' then ' ' else c)))
    { a with title := some (if t == "" then "Untitled Article" else t) }
  else a

/-- The main `try` body of `extract_article_content` (extractor.py lines
253-358): fetch, trafilatura, newspaper3k on the shared HTML, manual soup
fallback, cleanup and title synthesis. An `.error` is an exception escaping
to the outer handler. -/
def extractMain (env : ExtractEnv) (url : String) : Except String ArticleData :=
  let a0 : ArticleData := ⟨url, none, none, none, none, none⟩
  match env.fetchHtml with
  | .error e => .error e
  | .ok html =>
    match env.traf html with
    | .error e => .error e
    | .ok contentOpt =>
      let a1 := if pyTruthy contentOpt then { a0 with content := contentOpt } else a0
      let a2 := match env.npParse html with
        | .error _ => a1
        | .ok np => npMerge a1 np
      let a3 := if !pyTruthy a2.title && !pyTruthy a2.content then
          soupFallback env html a2
        else a2
      .ok (ensureTitle url (cleanupContent a3))

/-- `extract_article_content(url)` (extractor.py lines 239-390): the main
cascade, then — when it raised — the independent newspaper3k download
fallback, which fabricates placeholder fields for whichever of title/text it
is missing, and an `ExtractionError` only when that too yields nothing. -/
def extract_article_content (env : ExtractEnv) (url : String) : Except String ArticleData :=
  match extractMain env url with
  | .ok a => .ok a
  | .error e =>
    match env.npDownload with
    | .ok np =>
      if !(np.title == "") || !(np.text == "") then
        .ok { url := url,
              title := some (if np.title == "" then "No title extracted" else np.title),
              author := if np.authors.isEmpty then none else some (joinAuthors np.authors),
              description := some np.meta_description,
              pubDate := np.publish_date,
              content := some (if np.text == "" then "No content extracted" else np.text) }
      else .error ("Content extraction failed for " ++ url ++ ": " ++ e)
    | .error _ => .error ("Content extraction failed for " ++ url ++ ": " ++ e)

/-- An extraction environment where the main cascade raises (fetch fails)
and the native newspaper3k download recovers body text but no title. -/
def C4envPartial : ExtractEnv :=
  { fetchHtml := .error "403 Client Error",
    traf := fun _ => .ok none,
    npParse := fun _ => .error "no html",
    soupTitle := fun _ => none,
    soupContent := fun _ => none,
    soupMetaDesc := fun _ => none,
    soupAuthor := fun _ => none,
    npDownload := .ok ⟨"", [], "", none,
      "Some article body text recovered by the native download."⟩ }

/-- An extraction environment where the main cascade raises and the native
download recovers a title but no body text. -/
def C4envPartial2 : ExtractEnv :=
  { C4envPartial with npDownload := .ok ⟨"Recovered title", [], "", none, ""⟩ }

/-- C4 counterexample: when the main cascade raises and the independent
newspaper3k download yields body text without a title,
`extract_article_content` returns a record whose title is the fabricated
placeholder "No title extracted" instead of raising — refuting the claim
that it never returns such a record. -/
theorem C4_placeholder_returned :
    extract_article_content C4envPartial "https://e.com/a" =
      .ok ⟨"https://e.com/a", some "No title extracted", none, some "", none,
           some "Some article body text recovered by the native download."⟩ := rfl

/-- C4 amended: `extract_article_content` raises exactly when the main
cascade raised and the final independent newspaper3k download is also
exhausted (raises, or yields neither title nor text); but when that final
fallback yields only one of title/text, the missing field is returned as the
literal placeholder "No title extracted" / "No content extracted" — records
the validator subsequently rejects. -/
theorem C4_extractor_exhaustion (env : ExtractEnv) (url : String) :
    ((∃ e, extract_article_content env url = .error e) ↔
      ((∃ e, extractMain env url = .error e) ∧
        (∀ np, env.npDownload = .ok np → np.title = "" ∧ np.text = ""))) ∧
    (∀ e np, extractMain env url = .error e → env.npDownload = .ok np →
        np.title = "" → ¬(np.text = "") →
        extract_article_content env url =
          .ok ⟨url, some "No title extracted",
               if np.authors.isEmpty then none else some (joinAuthors np.authors),
               some np.meta_description, np.publish_date, some np.text⟩) ∧
    (∀ e np, extractMain env url = .error e → env.npDownload = .ok np →
        ¬(np.title = "") → np.text = "" →
        extract_article_content env url =
          .ok ⟨url, some np.title,
               if np.authors.isEmpty then none else some (joinAuthors np.authors),
               some np.meta_description, np.publish_date,
               some "No content extracted"⟩) ∧
    (∀ c : String, is_valid_article (adRecord ⟨url, some "No title extracted",
        none, none, none, some c⟩) = .ok false) ∧
    (∀ t : String, is_valid_article (adRecord ⟨url, some t, none, none, none,
        some "No content extracted"⟩) = .ok false) := by
  refine ⟨?_, ?_, ?_, ?_, ?_⟩
  · unfold extract_article_content
    cases hm : extractMain env url with
    | ok a =>
      constructor
      · rintro ⟨e, he⟩; cases he
      · rintro ⟨⟨e, he⟩, -⟩; cases he
    | error e =>
      cases hnp : env.npDownload with
      | error e2 =>
        constructor
        · intro _
          refine ⟨⟨e, rfl⟩, fun np h => ?_⟩
          cases h
        · intro _; exact ⟨_, rfl⟩
      | ok np =>
        cases ht : (np.title == "") with
        | false =>
          simp only [ht, Bool.not_false, Bool.true_or, if_true]
          constructor
          · rintro ⟨e2, he2⟩; cases he2
          · rintro ⟨-, hall⟩
            obtain ⟨h1, -⟩ := hall np rfl
            rw [h1] at ht
            simp at ht
        | true =>
          cases hx : (np.text == "") with
          | false =>
            simp only [ht, hx, Bool.not_false, Bool.not_true, Bool.false_or, if_true]
            constructor
            · rintro ⟨e2, he2⟩; cases he2
            · rintro ⟨-, hall⟩
              obtain ⟨-, h2⟩ := hall np rfl
              rw [h2] at hx
              simp at hx
          | true =>
            simp only [ht, hx, Bool.not_true, Bool.or_self, Bool.false_eq_true, if_false]
            constructor
            · intro _
              refine ⟨⟨e, rfl⟩, fun np' h => ?_⟩
              injection h with h'
              subst h'
              exact ⟨eq_of_beq ht, eq_of_beq hx⟩
            · intro _; exact ⟨_, rfl⟩
  · intro e np hm hnp ht hx
    unfold extract_article_content
    rw [hm, hnp]
    have ht' : (np.title == "") = true := beq_iff_eq.mpr ht
    have hx' : (np.text == "") = false := beq_eq_false_iff_ne.mpr hx
    simp [ht', hx']
  · intro e np hm hnp ht hx
    unfold extract_article_content
    rw [hm, hnp]
    have ht' : (np.title == "") = false := beq_eq_false_iff_ne.mpr ht
    have hx' : (np.text == "") = true := beq_iff_eq.mpr hx
    simp [ht', hx']
  · intro c
    rw [show adRecord ⟨url, some "No title extracted", none, none, none, some c⟩ =
        ⟨some (some url), some (some "No title extracted"), some (some c)⟩ from rfl]
    rw [valid_eq_strings]
    have hs : (errorIndicators.any (fun ind =>
        strIn ind (pyLower "No title extracted") || strIn ind (pyLower c))) = true := by
      simp only [errorIndicators, List.any_cons, List.any_nil]
      have h3 : strIn "no title extracted" (pyLower "No title extracted") = true := rfl
      rw [h3]
      simp
    unfold validSpec
    rw [hs]
    simp
  · intro t
    rw [show adRecord ⟨url, some t, none, none, none, some "No content extracted"⟩ =
        ⟨some (some url), some (some t), some (some "No content extracted")⟩ from rfl]
    rw [valid_eq_strings]
    have hs : (errorIndicators.any (fun ind =>
        strIn ind (pyLower t) || strIn ind (pyLower "No content extracted"))) = true := by
      simp only [errorIndicators, List.any_cons, List.any_nil]
      have h4 : strIn "no content extracted" (pyLower "No content extracted") = true := rfl
      rw [h4]
      simp
    unfold validSpec
    rw [hs]
    simp

/-- Witness for the C4 amended theorem: both placeholder shapes realised at
concrete environments. -/
theorem C4_extractor_exhaustion_witness :
    extract_article_content C4envPartial "https://e.com/b" =
      .ok ⟨"https://e.com/b", some "No title extracted", none, some "", none,
           some "Some article body text recovered by the native download."⟩ ∧
    extract_article_content C4envPartial2 "https://e.com/b" =
      .ok ⟨"https://e.com/b", some "Recovered title", none, some "", none,
           some "No content extracted"⟩ := by
  constructor
  · have h := (C4_extractor_exhaustion C4envPartial "https://e.com/b").2.1
      "403 Client Error"
      ⟨"", [], "", none, "Some article body text recovered by the native download."⟩
      rfl rfl rfl (by decide)
    simpa using h
  · have h := (C4_extractor_exhaustion C4envPartial2 "https://e.com/b").2.2.1
      "403 Client Error" ⟨"Recovered title", [], "", none, ""⟩
      rfl rfl (by decide) rfl
    simpa using h

/-! ### Rate-Limited Fetcher — `ContentExtractor._make_request`
(src/crawleb/crawler/extractor.py, lines 56-130).
The network is an oracle giving the status of the i-th HTTP request (`none`
when the request itself raises), and `random.uniform(3.0, 8.0)` is an oracle
indexed by retry attempt. The pre-request rate-limiting sleep and the header
rotation do not affect the retry behaviour and are not modelled. -/

/-- Failures `_make_request` can propagate: an HTTP error raised by
`raise_for_status`, or a network-level request exception. -/
inductive FetchErr where
  | http (code : Nat)
  | network
deriving DecidableEq

/-- What one `_make_request` call did: how many HTTP requests it issued, the
retry delays it slept in order, and its outcome. -/
structure FetchOutcome where
  requests : Nat
  delays : List ℚ
  outcome : Except FetchErr Nat

/-- The network and randomness oracles for one `_make_request` call. -/
structure FetchEnv where
  status : Nat → Option Nat
  unif : Nat → ℚ

/-- `response.raise_for_status()`: raise on a 4xx/5xx status. -/
def raiseForStatus (code : Nat) : Except FetchErr Nat :=
  if 400 ≤ code then .error (.http code) else .ok code

/-- The 403 retry loop (extractor.py lines 89-123): `n + 1` counts the retry
attempts left out of 3 (so the current attempt index is `2 - n`), `r` is the
status of the last response received, `reqs` the number of requests issued so
far. Each attempt sleeps `uniform(3.0, 8.0) * (attempt + 1)` and issues a
fresh-session request; a non-403 response breaks out; a request that raises
keeps the old response and, on the last attempt, re-raises via
`raise_for_status` on it. After the loop, `raise_for_status` runs on the
response in hand. -/
def retryLoop (env : FetchEnv) : Nat → Nat → Nat → List ℚ → FetchOutcome
  | r, 0, reqs, ds => ⟨reqs, ds, raiseForStatus r⟩
  | r, n + 1, reqs, ds =>
    let ds' := ds ++ [env.unif (2 - n) * (((2 - n : Nat) : ℚ) + 1)]
    match env.status reqs with
    | some r2 =>
      if r2 == 403 then retryLoop env r2 n (reqs + 1) ds'
      else ⟨reqs + 1, ds', raiseForStatus r2⟩
    | none =>
      if n == 0 then ⟨reqs + 1, ds', raiseForStatus r⟩
      else retryLoop env r n (reqs + 1) ds'

/-- `_make_request(url)` (extractor.py lines 56-130): issue the request; on
a 403, run up to 3 escalating-delay retries with fresh sessions; finally
`raise_for_status` on the response in hand, propagating request exceptions. -/
def make_request (env : FetchEnv) : FetchOutcome :=
  match env.status 0 with
  | none => ⟨1, [], .error .network⟩
  | some s0 =>
    if s0 == 403 then retryLoop env s0 3 1 []
    else ⟨1, [], raiseForStatus s0⟩

theorem make_request_some (env : FetchEnv) (s0 : Nat) (h : env.status 0 = some s0) :
    make_request env =
      if s0 == 403 then retryLoop env s0 3 1 [] else ⟨1, [], raiseForStatus s0⟩ := by
  unfold make_request
  rw [h]

theorem retryLoop_succ_some (env : FetchEnv) (r n reqs : Nat) (ds : List ℚ)
    (r2 : Nat) (h : env.status reqs = some r2) :
    retryLoop env r (n + 1) reqs ds =
      (if r2 == 403 then
        retryLoop env r2 n (reqs + 1)
          (ds ++ [env.unif (2 - n) * (((2 - n : Nat) : ℚ) + 1)])
      else ⟨reqs + 1, ds ++ [env.unif (2 - n) * (((2 - n : Nat) : ℚ) + 1)],
            raiseForStatus r2⟩) := by
  conv_lhs => unfold retryLoop
  rw [h]

/-- The network oracle of the denial scenario: three 403 responses then a
200; and the uniform draws 8, 3, 3 (all within [3, 8]). -/
def C7env : FetchEnv :=
  { status := fun i => if i < 3 then some 403 else some 200,
    unif := fun a => if a == 0 then 8 else 3 }

/-- C7 counterexample: with three 403 responses then a 200 and the admissible
uniform draws 8, 3, 3, the fetcher does return the 200 after exactly 4
requests, but the slept delays are 8, 6, 9 — the delays between the denial
responses (8 then 6) are not strictly increasing, refuting the claim. -/
theorem C7_delays_not_increasing :
    (make_request C7env).outcome = .ok 200 ∧
    (make_request C7env).requests = 4 ∧
    (make_request C7env).delays = [8, 6, 9] ∧
    ¬((8 : ℚ) < 6) := by
  rw [make_request_some C7env 403 rfl]
  norm_num
  rw [retryLoop_succ_some C7env 403 2 1 [] 403 rfl]
  norm_num
  rw [retryLoop_succ_some C7env 403 1 2 _ 403 rfl]
  norm_num
  rw [retryLoop_succ_some C7env 403 0 3 _ 200 rfl]
  norm_num [raiseForStatus, C7env]

/-- C7 amended: when three consecutive 403 responses are followed by a 200
and the uniform draws lie in [3, 8], the fetcher returns the 200 having
issued exactly 4 requests, sleeping the delays `unif a * (a + 1)` whose
admissible ranges [3(a+1), 8(a+1)] escalate with the attempt — but the
sampled delays themselves need not strictly increase; and when every retry
still yields 403, the HTTP 403 error is propagated to the caller. -/
theorem C7_backoff_on_denial :
    (∀ env : FetchEnv,
      env.status 0 = some 403 → env.status 1 = some 403 →
      env.status 2 = some 403 → env.status 3 = some 200 →
      (∀ a, a < 3 → 3 ≤ env.unif a ∧ env.unif a ≤ 8) →
      make_request env =
        ⟨4, [env.unif 0 * 1, env.unif 1 * 2, env.unif 2 * 3], .ok 200⟩ ∧
      (3 ≤ env.unif 0 * 1 ∧ env.unif 0 * 1 ≤ 8) ∧
      (6 ≤ env.unif 1 * 2 ∧ env.unif 1 * 2 ≤ 16) ∧
      (9 ≤ env.unif 2 * 3 ∧ env.unif 2 * 3 ≤ 24)) ∧
    (∀ env : FetchEnv, (∀ i, i ≤ 3 → env.status i = some 403) →
      (make_request env).outcome = .error (.http 403)) := by
  constructor
  · intro env h0 h1 h2 h3 hu
    obtain ⟨hu0l, hu0r⟩ := hu 0 (by norm_num)
    obtain ⟨hu1l, hu1r⟩ := hu 1 (by norm_num)
    obtain ⟨hu2l, hu2r⟩ := hu 2 (by norm_num)
    refine ⟨?_, ⟨by linarith, by linarith⟩, ⟨by linarith, by linarith⟩,
      ⟨by linarith, by linarith⟩⟩
    rw [make_request_some env 403 h0]
    norm_num
    rw [retryLoop_succ_some env 403 2 1 [] 403 h1]
    norm_num
    rw [retryLoop_succ_some env 403 1 2 _ 403 h2]
    norm_num
    rw [retryLoop_succ_some env 403 0 3 _ 200 h3]
    norm_num [raiseForStatus]
  · intro env hall
    rw [make_request_some env 403 (hall 0 (by norm_num))]
    norm_num
    rw [retryLoop_succ_some env 403 2 1 [] 403 (hall 1 (by norm_num))]
    norm_num
    rw [retryLoop_succ_some env 403 1 2 _ 403 (hall 2 (by norm_num))]
    norm_num
    rw [retryLoop_succ_some env 403 0 3 _ 403 (hall 3 (by norm_num))]
    norm_num [retryLoop, raiseForStatus]

/-- The all-denial network oracle with constant admissible draws. -/
def C7envAll403 : FetchEnv := { status := fun _ => some 403, unif := fun _ => 5 }

/-- Witness for the C7 amended theorem at concrete environments. -/
theorem C7_backoff_on_denial_witness :
    (make_request C7env =
        ⟨4, [C7env.unif 0 * 1, C7env.unif 1 * 2, C7env.unif 2 * 3], .ok 200⟩ ∧
      (3 ≤ C7env.unif 0 * 1 ∧ C7env.unif 0 * 1 ≤ 8) ∧
      (6 ≤ C7env.unif 1 * 2 ∧ C7env.unif 1 * 2 ≤ 16) ∧
      (9 ≤ C7env.unif 2 * 3 ∧ C7env.unif 2 * 3 ≤ 24)) ∧
    (make_request C7envAll403).outcome = .error (.http 403) :=
  ⟨C7_backoff_on_denial.1 C7env rfl rfl rfl rfl
      (by
        intro a ha
        interval_cases a <;> norm_num [C7env]),
   C7_backoff_on_denial.2 C7envAll403 (fun i _ => rfl)⟩

/-! ### Storage — `Database` (src/crawleb/database/database.py).
DuckDB tables are modelled as row lists; the `articles`, `topics` and
`companies` tables have a UNIQUE key whose violation makes an insert raise,
and the association tables have composite primary keys
`(article_id, topic_id)` / `(article_id, company_id)` (database.py lines
93-111), so a duplicate pair makes the raw insert raise. -/

/-- A row of the `articles` table. -/
structure StoredArticle where
  id : Nat
  url : String
  title : Option String
  author : Option String
  description : Option String
  pubDate : Option String
  crawlDate : Nat
  summary : Option String
  content : Option String
deriving DecidableEq

/-- A row of the `topics` table. -/
structure TopicRow where
  id : Nat
  name : String
deriving DecidableEq

/-- A row of the `companies` table. -/
structure CompanyRow where
  id : Nat
  name : String
  website_url : Option String
  summary : Option String
  founded_year : Option Int
  employee_count : Option String
deriving DecidableEq

/-- The database state: one list per table the crawl pipeline touches. -/
structure DbState where
  articles : List StoredArticle
  topics : List TopicRow
  companies : List CompanyRow
  articleTopics : List (Nat × Nat × ℚ)
  articleCompanies : List (Nat × Nat × ℚ)
deriving DecidableEq

/-- The empty database. -/
def emptyDb : DbState := ⟨[], [], [], [], []⟩

/-- `article_exists(url)` (database.py lines 157-160). -/
def article_exists (st : DbState) (url : String) : Bool :=
  st.articles.any (fun a => a.url == url)

/-- `add_article(article)` (database.py lines 162-170): the INSERT raises on
a duplicate URL (UNIQUE constraint) and otherwise returns the sequence-
assigned id. -/
def add_article (st : DbState) (a : StoredArticle) : Except String (Nat × DbState) :=
  if article_exists st a.url then .error "Constraint Error: duplicate url"
  else
    let aid := st.articles.length + 1
    .ok (aid, { st with articles := st.articles ++ [{ a with id := aid }] })

/-- `get_topic_by_name(name)` (database.py lines 317-325). -/
def get_topic_by_name (st : DbState) (name : String) : Option TopicRow :=
  st.topics.find? (fun t => t.name == name)

/-- `add_topic(topic)` (database.py lines 327-332): raises on a duplicate
name. -/
def add_topic (st : DbState) (name : String) : Except String (Nat × DbState) :=
  if st.topics.any (fun t => t.name == name) then .error "Constraint Error: duplicate name"
  else
    let tid := st.topics.length + 1
    .ok (tid, { st with topics := st.topics ++ [⟨tid, name⟩] })

/-- `get_company_by_name(name)` (database.py lines 255-268). -/
def get_company_by_name (st : DbState) (name : String) : Option CompanyRow :=
  st.companies.find? (fun c => c.name == name)

/-- `add_company(company)` (database.py lines 270-278): raises on a
duplicate name. -/
def add_company (st : DbState) (c : CompanyRow) : Except String (Nat × DbState) :=
  if st.companies.any (fun r => r.name == c.name) then .error "Constraint Error: duplicate name"
  else
    let cid := st.companies.length + 1
    .ok (cid, { st with companies := st.companies ++ [{ c with id := cid }] })

/-- Number of `article_topics` rows for a given pair. -/
def countTopicLinks (st : DbState) (aid tid : Nat) : Nat :=
  (st.articleTopics.filter (fun r => r.1 == aid && r.2.1 == tid)).length

/-- Number of `article_companies` rows for a given pair. -/
def countCompanyLinks (st : DbState) (aid cid : Nat) : Nat :=
  (st.articleCompanies.filter (fun r => r.1 == aid && r.2.1 == cid)).length

/-- The raw INSERT into `article_topics`: raises on a duplicate composite
primary key, or when the storage layer itself fails (`fault`). -/
def insertArticleTopic (fault : Bool) (st : DbState) (aid tid : Nat) (score : ℚ) :
    Except String DbState :=
  if fault then .error "IO Error"
  else if st.articleTopics.any (fun r => r.1 == aid && r.2.1 == tid) then
    .error "Constraint Error: duplicate key"
  else .ok { st with articleTopics := st.articleTopics ++ [(aid, tid, score)] }

/-- The raw INSERT into `article_companies`. -/
def insertArticleCompany (fault : Bool) (st : DbState) (aid cid : Nat) (score : ℚ) :
    Except String DbState :=
  if fault then .error "IO Error"
  else if st.articleCompanies.any (fun r => r.1 == aid && r.2.1 == cid) then
    .error "Constraint Error: duplicate key"
  else .ok { st with articleCompanies := st.articleCompanies ++ [(aid, cid, score)] }

/-- `link_article_topic(article_id, topic_id, relevance_score)` (database.py
lines 371-380): the insert is wrapped in `try: ... except Exception: pass`,
so every failure is swallowed and the state left as it was. -/
def link_article_topic (fault : Bool) (st : DbState) (aid tid : Nat) (score : ℚ) :
    Except String DbState :=
  match insertArticleTopic fault st aid tid score with
  | .ok st2 => .ok st2
  | .error _ => .ok st

/-- `link_article_company(article_id, company_id, relevance_score)`
(database.py lines 382-391). -/
def link_article_company (fault : Bool) (st : DbState) (aid cid : Nat) (score : ℚ) :
    Except String DbState :=
  match insertArticleCompany fault st aid cid score with
  | .ok st2 => .ok st2
  | .error _ => .ok st

theorem count_zero_any_false {l : List (Nat × Nat × ℚ)} {p : Nat × Nat × ℚ → Bool}
    (h : (l.filter p).length = 0) : l.any p = false := by
  rw [List.any_eq_false]
  intro x hx hpx
  have : x ∈ l.filter p := List.mem_filter.mpr ⟨hx, hpx⟩
  rw [List.length_eq_zero.mp h] at this
  cases this

/-- C9: linking the same (article, topic) or (article, company) pair twice
from a state without that pair produces exactly one association row, both
calls returning without error — the duplicate attempt is an idempotent
no-op. -/
theorem C9_association_idempotent (st : DbState) (aid tid cid : Nat) (s1 s2 : ℚ)
    (ht : countTopicLinks st aid tid = 0)
    (hc : countCompanyLinks st aid cid = 0) :
    ∃ st1 st2 st1' st2',
      link_article_topic false st aid tid s1 = .ok st1 ∧
      link_article_topic false st1 aid tid s2 = .ok st2 ∧
      st2 = st1 ∧ countTopicLinks st2 aid tid = 1 ∧
      link_article_company false st aid cid s1 = .ok st1' ∧
      link_article_company false st1' aid cid s2 = .ok st2' ∧
      st2' = st1' ∧ countCompanyLinks st2' aid cid = 1 := by
  have hanyT : st.articleTopics.any (fun r => r.1 == aid && r.2.1 == tid) = false :=
    count_zero_any_false ht
  have hanyC : st.articleCompanies.any (fun r => r.1 == aid && r.2.1 == cid) = false :=
    count_zero_any_false hc
  refine ⟨{ st with articleTopics := st.articleTopics ++ [(aid, tid, s1)] }, _,
    { st with articleCompanies := st.articleCompanies ++ [(aid, cid, s1)] }, _,
    ?_, ?_, rfl, ?_, ?_, ?_, rfl, ?_⟩
  · unfold link_article_topic insertArticleTopic
    simp [hanyT]
  · unfold link_article_topic insertArticleTopic
    simp
  · unfold countTopicLinks at ht ⊢
    simp only [List.filter_append, List.length_append, ht]
    simp
  · unfold link_article_company insertArticleCompany
    simp [hanyC]
  · unfold link_article_company insertArticleCompany
    simp
  · unfold countCompanyLinks at hc ⊢
    simp only [List.filter_append, List.length_append, hc]
    simp

/-- Witness for C9 at the empty database. -/
theorem C9_association_idempotent_witness :
    ∃ st1 st2 st1' st2',
      link_article_topic false emptyDb 1 2 1 = .ok st1 ∧
      link_article_topic false st1 1 2 1 = .ok st2 ∧
      st2 = st1 ∧ countTopicLinks st2 1 2 = 1 ∧
      link_article_company false emptyDb 1 3 1 = .ok st1' ∧
      link_article_company false st1' 1 3 1 = .ok st2' ∧
      st2' = st1' ∧ countCompanyLinks st2' 1 3 = 1 :=
  C9_association_idempotent emptyDb 1 2 3 1 1 rfl rfl

/-- C10: `link_article_topic` and `link_article_company` never raise — every
failure of the underlying association insert, including genuine storage
faults and not only duplicate-key conflicts, is caught and discarded, the
state left unchanged and no error surfaced to the caller. -/
theorem C10_link_swallows_all_failures :
    (∀ (fault : Bool) (st : DbState) (aid tid : Nat) (s : ℚ),
        ∃ st', link_article_topic fault st aid tid s = .ok st') ∧
    (∀ (st : DbState) (aid tid : Nat) (s : ℚ),
        link_article_topic true st aid tid s = .ok st) ∧
    (∀ (fault : Bool) (st : DbState) (aid cid : Nat) (s : ℚ),
        ∃ st', link_article_company fault st aid cid s = .ok st') ∧
    (∀ (st : DbState) (aid cid : Nat) (s : ℚ),
        link_article_company true st aid cid s = .ok st) := by
  refine ⟨?_, ?_, ?_, ?_⟩
  · intro fault st aid tid s
    unfold link_article_topic
    cases h : insertArticleTopic fault st aid tid s with
    | ok st2 => exact ⟨st2, rfl⟩
    | error e => exact ⟨st, rfl⟩
  · intro st aid tid s
    unfold link_article_topic insertArticleTopic
    simp
  · intro fault st aid cid s
    unfold link_article_company
    cases h : insertArticleCompany fault st aid cid s with
    | ok st2 => exact ⟨st2, rfl⟩
    | error e => exact ⟨st, rfl⟩
  · intro st aid cid s
    unfold link_article_company insertArticleCompany
    simp

/-! ### Crawl Orchestrator — `WebCrawler` (src/crawleb/crawler/crawler.py).
The LLM client and the extractor are oracles in the environment; the
orchestrator's own control flow — per-candidate try/except boundaries, the
summarize-then-insert order, the swallow-all handlers of the topic/company
passes — is translated from the source. Every LLM invocation is recorded in
a ghost call log carried in the state. -/

/-- One call on the `DatabricksLLMClient` collaborator. -/
inductive LlmCall where
  | summarize (content title : String)
  | topics (content title : String)
  | companies (content title : String)
  | research (name : String)
deriving DecidableEq

/-- Orchestrator-visible state: the database plus the ghost LLM call log. -/
structure CrawlState where
  db : DbState
  llmLog : List LlmCall
deriving DecidableEq

/-- Record an LLM invocation. -/
def logCall (st : CrawlState) (c : LlmCall) : CrawlState :=
  { st with llmLog := st.llmLog ++ [c] }

/-- A `crawl_registry` row as the orchestrator reads it. -/
structure RegistryEntry where
  url : String
  extract_topics : Bool
  extract_companies : Bool
  active : Bool
deriving DecidableEq

/-- The dictionary returned by `research_company` (absent keys are `none`;
`employee_count` defaults to "Unknown" at the call site). -/
structure CompanyInfo where
  website_url : Option String
  summary : Option String
  founded_year : Option Int
  employee_count : Option String
deriving DecidableEq

/-- External collaborators of the orchestrator: the registry contents, the
extractor, and the LLM client's five operations (each may raise), plus the
UTC clock. -/
structure CrawlEnv where
  registry : List RegistryEntry
  discover : String → Except String (List String)
  extract : String → Except String ArticleData
  summarize : String → String → Except String String
  topicsOf : String → String → Except String (List String)
  companiesOf : String → String → Except String (List String)
  research : String → Except String CompanyInfo
  now : Nat

/-- The `results` dictionary of `run_crawl` (crawler.py lines 27-35). -/
structure RunResults where
  total_urls : Nat
  new_articles : Nat
  existing_articles : Nat
  failed_extractions : Nat
  topics_added : Nat
  companies_added : Nat
  errors : List String
deriving DecidableEq

/-- The per-topic loop of `_process_topics` (crawler.py lines 140-155); a
raised database error aborts the loop and is swallowed by the enclosing
handler, keeping the mutations made so far. -/
def topicsLoop (aid : Nat) : List String → RunResults → CrawlState → RunResults × CrawlState
  | [], res, st => (res, st)
  | name :: rest, res, st =>
    if pyStrip name == "" then topicsLoop aid rest res st
    else
      match get_topic_by_name st.db name with
      | none =>
        match add_topic st.db name with
        | .error _ => (res, st)
        | .ok (tid, db1) =>
          let res1 := { res with topics_added := res.topics_added + 1 }
          match link_article_topic false db1 aid tid 1 with
          | .error _ => (res1, { st with db := db1 })
          | .ok db2 => topicsLoop aid rest res1 { st with db := db2 }
      | some t =>
        match link_article_topic false st.db aid t.id 1 with
        | .error _ => (res, st)
        | .ok db2 => topicsLoop aid rest res { st with db := db2 }

/-- `_process_topics` (crawler.py lines 132-158): one `extract_topics` LLM
call, then the per-topic loop; every exception is caught and logged only. -/
def process_topics (env : CrawlEnv) (aid : Nat) (ad : ArticleData)
    (res : RunResults) (st : CrawlState) : RunResults × CrawlState :=
  let c := ad.content.getD ""
  let t := pyOr ad.title ""
  let st0 := logCall st (.topics c t)
  match env.topicsOf c t with
  | .error _ => (res, st0)
  | .ok names => topicsLoop aid names res st0

/-- The per-company loop of `_process_companies` (crawler.py lines 168-193),
with the `research_company` LLM call on first sighting of an unseen name. -/
def companiesLoop (env : CrawlEnv) (aid : Nat) :
    List String → RunResults → CrawlState → RunResults × CrawlState
  | [], res, st => (res, st)
  | name :: rest, res, st =>
    if pyStrip name == "" then companiesLoop env aid rest res st
    else
      match get_company_by_name st.db name with
      | none =>
        let st0 := logCall st (.research name)
        match env.research name with
        | .error _ => (res, st0)
        | .ok ci =>
          match add_company st0.db ⟨0, name, ci.website_url, ci.summary,
              ci.founded_year, some (ci.employee_count.getD "Unknown")⟩ with
          | .error _ => (res, st0)
          | .ok (cid, db1) =>
            let res1 := { res with companies_added := res.companies_added + 1 }
            match link_article_company false db1 aid cid 1 with
            | .error _ => (res1, { st0 with db := db1 })
            | .ok db2 => companiesLoop env aid rest res1 { st0 with db := db2 }
      | some comp =>
        match link_article_company false st.db aid comp.id 1 with
        | .error _ => (res, st)
        | .ok db2 => companiesLoop env aid rest res { st with db := db2 }

/-- `_process_companies` (crawler.py lines 160-196). -/
def process_companies (env : CrawlEnv) (aid : Nat) (ad : ArticleData)
    (res : RunResults) (st : CrawlState) : RunResults × CrawlState :=
  let c := ad.content.getD ""
  let t := pyOr ad.title ""
  let st0 := logCall st (.companies c t)
  match env.companiesOf c t with
  | .error _ => (res, st0)
  | .ok names => companiesLoop env aid names res st0

/-- The body of the per-candidate `try` of `_process_registry_entry`
(crawler.py lines 73-125): dedup check, extraction with its own inner
handler, validation, summarize-before-insert, insert, then the optional
topic/company passes. An `.error` is an exception reaching the per-candidate
handler of lines 126-130, carrying the state at the raise. -/
def candidate_attempt (env : CrawlEnv) (entry : RegistryEntry)
    (res : RunResults) (st : CrawlState) (aurl : String) :
    Except (String × CrawlState) (RunResults × CrawlState) :=
  if article_exists st.db aurl then
    .ok ({ res with existing_articles := res.existing_articles + 1 }, st)
  else
    match env.extract aurl with
    | .error _ => .ok ({ res with failed_extractions := res.failed_extractions + 1 }, st)
    | .ok ad =>
      match is_valid_article (adRecord ad) with
      | .error e => .error (e, st)
      | .ok false => .ok ({ res with failed_extractions := res.failed_extractions + 1 }, st)
      | .ok true =>
        let base : StoredArticle :=
          ⟨0, ad.url, ad.title, ad.author, ad.description, ad.pubDate, env.now, none, ad.content⟩
        let sumStep : Except (String × CrawlState) (StoredArticle × CrawlState) :=
          if pyTruthy ad.content then
            let st1 := logCall st (.summarize (ad.content.getD "") (pyOr ad.title ""))
            match env.summarize (ad.content.getD "") (pyOr ad.title "") with
            | .error e => .error (e, st1)
            | .ok s => .ok ({ base with
                summary := some (if s == "" then "Summary generation failed" else s) }, st1)
          else .ok (base, st)
        match sumStep with
        | .error p => .error p
        | .ok (art, st2) =>
          match add_article st2.db art with
          | .error e => .error (e, st2)
          | .ok (aid, db3) =>
            let st3 := { st2 with db := db3 }
            let res1 := { res with new_articles := res.new_articles + 1 }
            let out1 :=
              if entry.extract_topics && pyTruthy ad.content then
                process_topics env aid ad res1 st3
              else (res1, st3)
            .ok (if entry.extract_companies && pyTruthy ad.content then
                process_companies env aid ad out1.1 out1.2
              else out1)

/-- One iteration of the candidate loop of `_process_registry_entry`
(crawler.py lines 72-130): run the attempt, and on a raise append the error
string and count a failed extraction (the raise always happens before any
counter mutation of this candidate). -/
def candidate_step (env : CrawlEnv) (entry : RegistryEntry)
    (acc : RunResults × CrawlState) (aurl : String) : RunResults × CrawlState :=
  match candidate_attempt env entry acc.1 acc.2 aurl with
  | .ok out => out
  | .error (e, st') =>
    ({ acc.1 with
        errors := acc.1.errors ++ ["Error processing article " ++ aurl ++ ": " ++ e],
        failed_extractions := acc.1.failed_extractions + 1 }, st')

/-- `_process_registry_entry` (crawler.py lines 61-130): discovery with the
original URL as fallback, then the candidate loop. -/
def process_registry_entry (env : CrawlEnv) (entry : RegistryEntry)
    (res : RunResults) (st : CrawlState) : RunResults × CrawlState :=
  let urls := match env.discover entry.url with
    | .ok us => us
    | .error _ => [entry.url]
  urls.foldl (candidate_step env entry) (res, st)

/-- `run_crawl()` (crawler.py lines 22-59): filter the active registrations,
set `total_urls`, and process each entry in order (the per-entry and
critical handlers are unreachable in this model because
`process_registry_entry` is total). -/
def run_crawl (env : CrawlEnv) (st : CrawlState) : RunResults × CrawlState :=
  let active := env.registry.filter (fun e => e.active)
  let res0 : RunResults := ⟨active.length, 0, 0, 0, 0, 0, []⟩
  active.foldl (fun acc entry => process_registry_entry env entry acc.1 acc.2) (res0, st)

/-- The `results` dictionary of `crawl_single_url` (crawler.py lines
203-210). -/
structure UrlResult where
  url : String
  success : Bool
  article_id : Option Nat
  topics : List String
  companies : List String
  error : Option String
deriving DecidableEq

/-- The per-topic loop of `crawl_single_url` (crawler.py lines 262-274): it
is inside the outer `try` only, so a raised database error escapes to the
outer handler carrying the partial result. -/
def singleTopicsLoop (env : CrawlEnv) (aid : Nat) :
    List String → UrlResult → CrawlState →
    Except (String × UrlResult × CrawlState) (UrlResult × CrawlState)
  | [], r, st => .ok (r, st)
  | name :: rest, r, st =>
    if pyStrip name == "" then singleTopicsLoop env aid rest r st
    else
      match get_topic_by_name st.db name with
      | none =>
        match add_topic st.db name with
        | .error e => .error (e, r, st)
        | .ok (tid, db1) =>
          match link_article_topic false db1 aid tid 1 with
          | .error e => .error (e, r, { st with db := db1 })
          | .ok db2 =>
            singleTopicsLoop env aid rest
              { r with topics := r.topics ++ [name] } { st with db := db2 }
      | some t =>
        match link_article_topic false st.db aid t.id 1 with
        | .error e => .error (e, r, st)
        | .ok db2 =>
          singleTopicsLoop env aid rest
            { r with topics := r.topics ++ [name] } { st with db := db2 }

/-- The per-company loop of `crawl_single_url` (crawler.py lines 283-304). -/
def singleCompaniesLoop (env : CrawlEnv) (aid : Nat) :
    List String → UrlResult → CrawlState →
    Except (String × UrlResult × CrawlState) (UrlResult × CrawlState)
  | [], r, st => .ok (r, st)
  | name :: rest, r, st =>
    if pyStrip name == "" then singleCompaniesLoop env aid rest r st
    else
      match get_company_by_name st.db name with
      | none =>
        let st0 := logCall st (.research name)
        match env.research name with
        | .error e => .error (e, r, st0)
        | .ok ci =>
          match add_company st0.db ⟨0, name, ci.website_url, ci.summary,
              ci.founded_year, some (ci.employee_count.getD "Unknown")⟩ with
          | .error e => .error (e, r, st0)
          | .ok (cid, db1) =>
            match link_article_company false db1 aid cid 1 with
            | .error e => .error (e, r, { st0 with db := db1 })
            | .ok db2 =>
              singleCompaniesLoop env aid rest
                { r with companies := r.companies ++ [name] } { st0 with db := db2 }
      | some comp =>
        match link_article_company false st.db aid comp.id 1 with
        | .error e => .error (e, r, st)
        | .ok db2 =>
          singleCompaniesLoop env aid rest
            { r with companies := r.companies ++ [name] } { st with db := db2 }

/-- The topic/company passes of `crawl_single_url` after the article is
persisted (crawler.py lines 255-306): both run inside the outer `try` only,
so their exceptions escape with the result's `success` already true. -/
def singleEnrich (env : CrawlEnv) (ad : ArticleData)
    (extractTopics extractCompanies : Bool) (aid : Nat)
    (r1 : UrlResult) (st3 : CrawlState) :
    Except (String × UrlResult × CrawlState) (UrlResult × CrawlState) :=
  let step1 : Except (String × UrlResult × CrawlState) (UrlResult × CrawlState) :=
    if extractTopics && pyTruthy ad.content then
      let st4 := logCall st3 (.topics (ad.content.getD "") (pyOr ad.title ""))
      match env.topicsOf (ad.content.getD "") (pyOr ad.title "") with
      | .error e => .error (e, r1, st4)
      | .ok names => singleTopicsLoop env aid names r1 st4
    else .ok (r1, st3)
  match step1 with
  | .error p => .error p
  | .ok (r2, st5) =>
    if extractCompanies && pyTruthy ad.content then
      let st6 := logCall st5 (.companies (ad.content.getD "") (pyOr ad.title ""))
      match env.companiesOf (ad.content.getD "") (pyOr ad.title "") with
      | .error e => .error (e, r2, st6)
      | .ok names => singleCompaniesLoop env aid names r2 st6
    else .ok (r2, st5)

/-- The body of the outer `try` of `crawl_single_url` (crawler.py lines
212-306). An `.error` is an exception reaching the handler of lines 308-311,
carrying the result dictionary as already mutated. -/
def crawl_single_attempt (env : CrawlEnv) (url : String)
    (extractTopics extractCompanies : Bool) (st : CrawlState) :
    Except (String × UrlResult × CrawlState) (UrlResult × CrawlState) :=
  let res0 : UrlResult := ⟨url, false, none, [], [], none⟩
  if article_exists st.db url then
    .ok ({ res0 with error := some "Article already exists" }, st)
  else
    match env.extract url with
    | .error e => .ok ({ res0 with error := some ("Content extraction failed: " ++ e) }, st)
    | .ok ad =>
      match is_valid_article (adRecord ad) with
      | .error e => .error (e, res0, st)
      | .ok false => .ok ({ res0 with error := some "Invalid or insufficient article content" }, st)
      | .ok true =>
        let base : StoredArticle :=
          ⟨0, ad.url, ad.title, ad.author, ad.description, ad.pubDate, env.now, none, ad.content⟩
        let sumStep : Except (String × UrlResult × CrawlState) (StoredArticle × CrawlState) :=
          if pyTruthy ad.content then
            let st1 := logCall st (.summarize (ad.content.getD "") (pyOr ad.title ""))
            match env.summarize (ad.content.getD "") (pyOr ad.title "") with
            | .error e => .error (e, res0, st1)
            | .ok s => .ok ({ base with
                summary := some (if s == "" then "Summary generation failed" else s) }, st1)
          else .ok (base, st)
        match sumStep with
        | .error p => .error p
        | .ok (art, st2) =>
          match add_article st2.db art with
          | .error e => .error (e, res0, st2)
          | .ok (aid, db3) =>
            singleEnrich env ad extractTopics extractCompanies aid
              { res0 with success := true, article_id := some aid }
              { st2 with db := db3 }

/-- `crawl_single_url(url, extract_topics, extract_companies)` (crawler.py
lines 198-311): run the attempt; the outer handler stores the error string
in the partial result (without resetting `success`). -/
def crawl_single_url (env : CrawlEnv) (url : String)
    (extractTopics extractCompanies : Bool) (st : CrawlState) : UrlResult × CrawlState :=
  match crawl_single_attempt env url extractTopics extractCompanies st with
  | .ok out => out
  | .error (e, r, st') => ({ r with error := some e }, st')

theorem add_topic_ok_articles {st : DbState} {name : String} {tid : Nat}
    {db1 : DbState} (h : add_topic st name = .ok (tid, db1)) :
    db1.articles = st.articles := by
  unfold add_topic at h
  split at h
  · cases h
  · injection h with h2
    injection h2 with h3 h4
    rw [← h4]

theorem add_company_ok_articles {st : DbState} {c : CompanyRow} {cid : Nat}
    {db1 : DbState} (h : add_company st c = .ok (cid, db1)) :
    db1.articles = st.articles := by
  unfold add_company at h
  split at h
  · cases h
  · injection h with h2
    injection h2 with h3 h4
    rw [← h4]

theorem link_topic_ok_articles {fault : Bool} {st : DbState} {aid tid : Nat}
    {s : ℚ} {db2 : DbState} (h : link_article_topic fault st aid tid s = .ok db2) :
    db2.articles = st.articles := by
  unfold link_article_topic insertArticleTopic at h
  split at h
  · next st2 heq =>
    injection h with h2
    split at heq
    · cases heq
    · split at heq
      · cases heq
      · injection heq with h3
        rw [← h2, ← h3]
  · injection h with h2
    rw [← h2]

theorem link_company_ok_articles {fault : Bool} {st : DbState} {aid cid : Nat}
    {s : ℚ} {db2 : DbState} (h : link_article_company fault st aid cid s = .ok db2) :
    db2.articles = st.articles := by
  unfold link_article_company insertArticleCompany at h
  split at h
  · next st2 heq =>
    injection h with h2
    split at heq
    · cases heq
    · split at heq
      · cases heq
      · injection heq with h3
        rw [← h2, ← h3]
  · injection h with h2
    rw [← h2]

theorem topicsLoop_preserves (aid : Nat) (names : List String) :
    ∀ (res : RunResults) (st : CrawlState),
      (topicsLoop aid names res st).1.new_articles = res.new_articles ∧
      (topicsLoop aid names res st).1.existing_articles = res.existing_articles ∧
      (topicsLoop aid names res st).1.failed_extractions = res.failed_extractions ∧
      (topicsLoop aid names res st).1.errors = res.errors ∧
      (topicsLoop aid names res st).2.db.articles = st.db.articles := by
  induction names with
  | nil => intro res st; exact ⟨rfl, rfl, rfl, rfl, rfl⟩
  | cons name rest ih =>
    intro res st
    show (topicsLoop aid (name :: rest) res st).1.new_articles = _ ∧ _
    have hstep : topicsLoop aid (name :: rest) res st =
        (if pyStrip name == "" then topicsLoop aid rest res st
        else
          match get_topic_by_name st.db name with
          | none =>
            match add_topic st.db name with
            | .error _ => (res, st)
            | .ok (tid, db1) =>
              let res1 := { res with topics_added := res.topics_added + 1 }
              match link_article_topic false db1 aid tid 1 with
              | .error _ => (res1, { st with db := db1 })
              | .ok db2 => topicsLoop aid rest res1 { st with db := db2 }
          | some t =>
            match link_article_topic false st.db aid t.id 1 with
            | .error _ => (res, st)
            | .ok db2 => topicsLoop aid rest res { st with db := db2 }) := rfl
    rw [hstep]
    split
    · exact ih res st
    · split
      · next hg =>
        split
        · exact ⟨rfl, rfl, rfl, rfl, rfl⟩
        · next tid db1 hadd =>
          split
          · next hlink =>
            exact ⟨rfl, rfl, rfl, rfl, add_topic_ok_articles hadd⟩
          · next db2 hlink =>
            obtain ⟨p1, p2, p3, p4, p5⟩ := ih { res with topics_added := res.topics_added + 1 }
              { st with db := db2 }
            refine ⟨p1, p2, p3, p4, ?_⟩
            rw [p5]
            show db2.articles = st.db.articles
            rw [link_topic_ok_articles hlink, add_topic_ok_articles hadd]
      · next t hg =>
        split
        · exact ⟨rfl, rfl, rfl, rfl, rfl⟩
        · next db2 hlink =>
          obtain ⟨p1, p2, p3, p4, p5⟩ := ih res { st with db := db2 }
          refine ⟨p1, p2, p3, p4, ?_⟩
          rw [p5]
          exact link_topic_ok_articles hlink

theorem companiesLoop_preserves (env : CrawlEnv) (aid : Nat) (names : List String) :
    ∀ (res : RunResults) (st : CrawlState),
      (companiesLoop env aid names res st).1.new_articles = res.new_articles ∧
      (companiesLoop env aid names res st).1.existing_articles = res.existing_articles ∧
      (companiesLoop env aid names res st).1.failed_extractions = res.failed_extractions ∧
      (companiesLoop env aid names res st).1.errors = res.errors ∧
      (companiesLoop env aid names res st).2.db.articles = st.db.articles := by
  induction names with
  | nil => intro res st; exact ⟨rfl, rfl, rfl, rfl, rfl⟩
  | cons name rest ih =>
    intro res st
    show (companiesLoop env aid (name :: rest) res st).1.new_articles = _ ∧ _
    have hstep : companiesLoop env aid (name :: rest) res st =
        (if pyStrip name == "" then companiesLoop env aid rest res st
        else
          match get_company_by_name st.db name with
          | none =>
            let st0 := logCall st (.research name)
            match env.research name with
            | .error _ => (res, st0)
            | .ok ci =>
              match add_company st0.db ⟨0, name, ci.website_url, ci.summary,
                  ci.founded_year, some (ci.employee_count.getD "Unknown")⟩ with
              | .error _ => (res, st0)
              | .ok (cid, db1) =>
                let res1 := { res with companies_added := res.companies_added + 1 }
                match link_article_company false db1 aid cid 1 with
                | .error _ => (res1, { st0 with db := db1 })
                | .ok db2 => companiesLoop env aid rest res1 { st0 with db := db2 }
          | some comp =>
            match link_article_company false st.db aid comp.id 1 with
            | .error _ => (res, st)
            | .ok db2 => companiesLoop env aid rest res { st with db := db2 }) := rfl
    rw [hstep]
    split
    · exact ih res st
    · split
      · next hg =>
        split
        · exact ⟨rfl, rfl, rfl, rfl, rfl⟩
        · next ci hres =>
          dsimp only
          split
          · exact ⟨rfl, rfl, rfl, rfl, rfl⟩
          · next cid db1 hadd =>
            split
            · next hlink =>
              exact ⟨rfl, rfl, rfl, rfl, add_company_ok_articles hadd⟩
            · next db2 hlink =>
              obtain ⟨p1, p2, p3, p4, p5⟩ := ih
                { res with companies_added := res.companies_added + 1 }
                { logCall st (.research name) with db := db2 }
              refine ⟨p1, p2, p3, p4, ?_⟩
              rw [p5]
              show db2.articles = st.db.articles
              rw [link_company_ok_articles hlink, add_company_ok_articles hadd]
              rfl
      · next comp hg =>
        split
        · exact ⟨rfl, rfl, rfl, rfl, rfl⟩
        · next db2 hlink =>
          obtain ⟨p1, p2, p3, p4, p5⟩ := ih res { st with db := db2 }
          refine ⟨p1, p2, p3, p4, ?_⟩
          rw [p5]
          exact link_company_ok_articles hlink

theorem process_topics_preserves (env : CrawlEnv) (aid : Nat) (ad : ArticleData)
    (res : RunResults) (st : CrawlState) :
    (process_topics env aid ad res st).1.new_articles = res.new_articles ∧
    (process_topics env aid ad res st).1.existing_articles = res.existing_articles ∧
    (process_topics env aid ad res st).1.failed_extractions = res.failed_extractions ∧
    (process_topics env aid ad res st).1.errors = res.errors ∧
    (process_topics env aid ad res st).2.db.articles = st.db.articles := by
  unfold process_topics
  dsimp only
  split
  · exact ⟨rfl, rfl, rfl, rfl, rfl⟩
  · exact topicsLoop_preserves aid _ res _

theorem process_companies_preserves (env : CrawlEnv) (aid : Nat) (ad : ArticleData)
    (res : RunResults) (st : CrawlState) :
    (process_companies env aid ad res st).1.new_articles = res.new_articles ∧
    (process_companies env aid ad res st).1.existing_articles = res.existing_articles ∧
    (process_companies env aid ad res st).1.failed_extractions = res.failed_extractions ∧
    (process_companies env aid ad res st).1.errors = res.errors ∧
    (process_companies env aid ad res st).2.db.articles = st.db.articles := by
  unfold process_companies
  dsimp only
  split
  · exact ⟨rfl, rfl, rfl, rfl, rfl⟩
  · exact companiesLoop_preserves env aid _ res _

theorem candidate_step_existing (env : CrawlEnv) (entry : RegistryEntry)
    (acc : RunResults × CrawlState) (aurl : String)
    (hex : article_exists acc.2.db aurl = true) :
    candidate_step env entry acc aurl =
      ({ acc.1 with existing_articles := acc.1.existing_articles + 1 }, acc.2) := by
  unfold candidate_step candidate_attempt
  simp only [hex, if_true]

theorem candidate_step_extract_error (env : CrawlEnv) (entry : RegistryEntry)
    (acc : RunResults × CrawlState) (aurl : String) (e : String)
    (hex : article_exists acc.2.db aurl = false)
    (hE : env.extract aurl = .error e) :
    candidate_step env entry acc aurl =
      ({ acc.1 with failed_extractions := acc.1.failed_extractions + 1 }, acc.2) := by
  unfold candidate_step candidate_attempt
  simp only [hex, Bool.false_eq_true, if_false, hE]

theorem pt_new (env : CrawlEnv) (aid : Nat) (ad : ArticleData) (res : RunResults)
    (st : CrawlState) :
    (process_topics env aid ad res st).1.new_articles = res.new_articles :=
  (process_topics_preserves env aid ad res st).1

theorem pt_exist (env : CrawlEnv) (aid : Nat) (ad : ArticleData) (res : RunResults)
    (st : CrawlState) :
    (process_topics env aid ad res st).1.existing_articles = res.existing_articles :=
  (process_topics_preserves env aid ad res st).2.1

theorem pt_failed (env : CrawlEnv) (aid : Nat) (ad : ArticleData) (res : RunResults)
    (st : CrawlState) :
    (process_topics env aid ad res st).1.failed_extractions = res.failed_extractions :=
  (process_topics_preserves env aid ad res st).2.2.1

theorem pt_errors (env : CrawlEnv) (aid : Nat) (ad : ArticleData) (res : RunResults)
    (st : CrawlState) :
    (process_topics env aid ad res st).1.errors = res.errors :=
  (process_topics_preserves env aid ad res st).2.2.2.1

theorem pt_articles (env : CrawlEnv) (aid : Nat) (ad : ArticleData) (res : RunResults)
    (st : CrawlState) :
    (process_topics env aid ad res st).2.db.articles = st.db.articles :=
  (process_topics_preserves env aid ad res st).2.2.2.2

theorem pc_new (env : CrawlEnv) (aid : Nat) (ad : ArticleData) (res : RunResults)
    (st : CrawlState) :
    (process_companies env aid ad res st).1.new_articles = res.new_articles :=
  (process_companies_preserves env aid ad res st).1

theorem pc_exist (env : CrawlEnv) (aid : Nat) (ad : ArticleData) (res : RunResults)
    (st : CrawlState) :
    (process_companies env aid ad res st).1.existing_articles = res.existing_articles :=
  (process_companies_preserves env aid ad res st).2.1

theorem pc_failed (env : CrawlEnv) (aid : Nat) (ad : ArticleData) (res : RunResults)
    (st : CrawlState) :
    (process_companies env aid ad res st).1.failed_extractions = res.failed_extractions :=
  (process_companies_preserves env aid ad res st).2.2.1

theorem pc_errors (env : CrawlEnv) (aid : Nat) (ad : ArticleData) (res : RunResults)
    (st : CrawlState) :
    (process_companies env aid ad res st).1.errors = res.errors :=
  (process_companies_preserves env aid ad res st).2.2.2.1

theorem pc_articles (env : CrawlEnv) (aid : Nat) (ad : ArticleData) (res : RunResults)
    (st : CrawlState) :
    (process_companies env aid ad res st).2.db.articles = st.db.articles :=
  (process_companies_preserves env aid ad res st).2.2.2.2

theorem candidate_step_success (env : CrawlEnv) (entry : RegistryEntry)
    (acc : RunResults × CrawlState) (aurl : String) (d : ArticleData)
    (hex : article_exists acc.2.db aurl = false)
    (hexd : article_exists acc.2.db d.url = false)
    (hE : env.extract aurl = .ok d)
    (hV : is_valid_article (adRecord d) = .ok true)
    (hS : ∀ c t, ∃ s, env.summarize c t = .ok s) :
    (candidate_step env entry acc aurl).1.new_articles = acc.1.new_articles + 1 ∧
    (candidate_step env entry acc aurl).1.existing_articles = acc.1.existing_articles ∧
    (candidate_step env entry acc aurl).1.failed_extractions = acc.1.failed_extractions ∧
    (candidate_step env entry acc aurl).1.errors = acc.1.errors ∧
    ∃ art : StoredArticle,
      (candidate_step env entry acc aurl).2.db.articles = acc.2.db.articles ++ [art] ∧
      art.url = d.url := by
  unfold candidate_step candidate_attempt
  simp only [hex, Bool.false_eq_true, if_false, hE, hV]
  cases hc : pyTruthy d.content with
  | false =>
    simp only [hc, Bool.false_eq_true, if_false, Bool.and_false]
    unfold add_article
    simp only [hexd, Bool.false_eq_true, if_false]
    exact ⟨by trivial, by trivial, by trivial, by trivial, _, by rfl, by trivial⟩
  | true =>
    simp only [hc, if_true, Bool.and_true]
    obtain ⟨s, hs⟩ := hS (d.content.getD "") (pyOr d.title "")
    simp only [hs]
    unfold add_article
    simp only [show article_exists (logCall acc.2 (.summarize (d.content.getD "")
        (pyOr d.title ""))).db d.url = false from hexd, Bool.false_eq_true, if_false]
    cases hTf : entry.extract_topics with
    | false =>
      simp only [hTf, Bool.false_eq_true, if_false]
      cases hCf : entry.extract_companies with
      | true =>
        simp only [hCf, if_true, pc_new, pc_exist, pc_failed, pc_errors, pc_articles]
        exact ⟨by trivial, by trivial, by trivial, by trivial, _, by rfl, by trivial⟩
      | false =>
        simp only [hCf, Bool.false_eq_true, if_false]
        exact ⟨by trivial, by trivial, by trivial, by trivial, _, by rfl, by trivial⟩
    | true =>
      simp only [hTf, if_true]
      cases hCf : entry.extract_companies with
      | true =>
        simp only [hCf, if_true, pc_new, pc_exist, pc_failed, pc_errors, pc_articles,
          pt_new, pt_exist, pt_failed, pt_errors, pt_articles]
        exact ⟨by trivial, by trivial, by trivial, by trivial, _, by rfl, by trivial⟩
      | false =>
        simp only [hCf, Bool.false_eq_true, if_false, pt_new, pt_exist, pt_failed,
          pt_errors, pt_articles]
        exact ⟨by trivial, by trivial, by trivial, by trivial, _, by rfl, by trivial⟩

theorem run_crawl_single_entry (env : CrawlEnv) (st0 : CrawlState)
    (entry : RegistryEntry) (hreg : env.registry = [entry])
    (hact : entry.active = true) :
    run_crawl env st0 = process_registry_entry env entry ⟨1, 0, 0, 0, 0, 0, []⟩ st0 := by
  unfold run_crawl
  rw [hreg]
  simp [hact]

theorem process_registry_entry_disc (env : CrawlEnv) (entry : RegistryEntry)
    (res : RunResults) (st : CrawlState) (us : List String)
    (hdisc : env.discover entry.url = .ok us) :
    process_registry_entry env entry res st =
      us.foldl (candidate_step env entry) (res, st) := by
  unfold process_registry_entry
  rw [hdisc]

theorem three_candidates (env : CrawlEnv) (entry : RegistryEntry)
    (acc : RunResults × CrawlState) (u1 u2 u3 e2 : String) (d1 d3 : ArticleData)
    (h12 : u1 ≠ u2) (h13 : u1 ≠ u3)
    (hex1 : article_exists acc.2.db u1 = false)
    (hex2 : article_exists acc.2.db u2 = false)
    (hex3 : article_exists acc.2.db u3 = false)
    (hE1 : env.extract u1 = .ok d1) (hu1 : d1.url = u1)
    (hE2 : env.extract u2 = .error e2)
    (hE3 : env.extract u3 = .ok d3) (hu3 : d3.url = u3)
    (hV1 : is_valid_article (adRecord d1) = .ok true)
    (hV3 : is_valid_article (adRecord d3) = .ok true)
    (hS : ∀ c t, ∃ s, env.summarize c t = .ok s) :
    (candidate_step env entry (candidate_step env entry
        (candidate_step env entry acc u1) u2) u3).1.new_articles =
      acc.1.new_articles + 2 ∧
    (candidate_step env entry (candidate_step env entry
        (candidate_step env entry acc u1) u2) u3).1.failed_extractions =
      acc.1.failed_extractions + 1 ∧
    (candidate_step env entry (candidate_step env entry
        (candidate_step env entry acc u1) u2) u3).1.errors = acc.1.errors ∧
    article_exists (candidate_step env entry (candidate_step env entry
        (candidate_step env entry acc u1) u2) u3).2.db u3 = true := by
  obtain ⟨n1, x1, f1, er1, art1, hart1, hart1url⟩ :=
    candidate_step_success env entry acc u1 d1 hex1 (by rw [hu1]; exact hex1) hE1 hV1 hS
  have hex2' : article_exists (candidate_step env entry acc u1).2.db u2 = false := by
    unfold article_exists
    rw [hart1, List.any_append]
    have ha : acc.2.db.articles.any (fun a => a.url == u2) = false := hex2
    rw [ha]
    simp [hart1url, hu1, h12]
  have hex3' : article_exists (candidate_step env entry acc u1).2.db u3 = false := by
    unfold article_exists
    rw [hart1, List.any_append]
    have ha : acc.2.db.articles.any (fun a => a.url == u3) = false := hex3
    rw [ha]
    simp [hart1url, hu1, h13]
  have h2 : candidate_step env entry (candidate_step env entry acc u1) u2 =
      ({ (candidate_step env entry acc u1).1 with
          failed_extractions :=
            (candidate_step env entry acc u1).1.failed_extractions + 1 },
        (candidate_step env entry acc u1).2) :=
    candidate_step_extract_error env entry (candidate_step env entry acc u1) u2 e2
      hex2' hE2
  rw [h2]
  obtain ⟨n3, x3, f3, er3, art3, hart3, hart3url⟩ :=
    candidate_step_success env entry
      ({ (candidate_step env entry acc u1).1 with
          failed_extractions :=
            (candidate_step env entry acc u1).1.failed_extractions + 1 },
        (candidate_step env entry acc u1).2) u3 d3 hex3'
      (by rw [hu3]; exact hex3') hE3 hV3 hS
  refine ⟨?_, ?_, ?_, ?_⟩
  · rw [n3]
    show (candidate_step env entry acc u1).1.new_articles + 1 =
      acc.1.new_articles + 2
    rw [n1]
  · rw [f3]
    show (candidate_step env entry acc u1).1.failed_extractions + 1 =
      acc.1.failed_extractions + 1
    rw [f1]
  · rw [er3]
    show (candidate_step env entry acc u1).1.errors = acc.1.errors
    rw [er1]
  · unfold article_exists
    rw [hart3, List.any_append]
    simp [hart3url, hu3]

/-- C1 amended: a sweep over three fresh candidate URLs where the second
raises an extraction error and the first and third extract, validate and
persist returns `newArticles = 2` and `failedExtractions = 1`, the failure
of the second candidate does not abort the third (which ends up stored) —
but the `errors` list stays empty: an extraction failure caught at the inner
per-URL boundary is counted and logged, never appended to `errors`. -/
theorem C1_partial_failure_isolation (env : CrawlEnv) (st0 : CrawlState)
    (entry : RegistryEntry) (u1 u2 u3 e2 : String) (d1 d3 : ArticleData)
    (hreg : env.registry = [entry]) (hact : entry.active = true)
    (hdisc : env.discover entry.url = .ok [u1, u2, u3])
    (h12 : u1 ≠ u2) (h13 : u1 ≠ u3)
    (hex1 : article_exists st0.db u1 = false)
    (hex2 : article_exists st0.db u2 = false)
    (hex3 : article_exists st0.db u3 = false)
    (hE1 : env.extract u1 = .ok d1) (hu1 : d1.url = u1)
    (hE2 : env.extract u2 = .error e2)
    (hE3 : env.extract u3 = .ok d3) (hu3 : d3.url = u3)
    (hV1 : is_valid_article (adRecord d1) = .ok true)
    (hV3 : is_valid_article (adRecord d3) = .ok true)
    (hS : ∀ c t, ∃ s, env.summarize c t = .ok s) :
    (run_crawl env st0).1.new_articles = 2 ∧
    (run_crawl env st0).1.failed_extractions = 1 ∧
    (run_crawl env st0).1.errors = [] ∧
    article_exists (run_crawl env st0).2.db u3 = true := by
  rw [run_crawl_single_entry env st0 entry hreg hact,
    process_registry_entry_disc env entry _ _ _ hdisc,
    List.foldl_cons, List.foldl_cons, List.foldl_cons, List.foldl_nil]
  obtain ⟨hn, hf, he, hx⟩ := three_candidates env entry (⟨1, 0, 0, 0, 0, 0, []⟩, st0)
    u1 u2 u3 e2 d1 d3 h12 h13 hex1 hex2 hex3 hE1 hu1 hE2 hE3 hu3 hV1 hV3 hS
  exact ⟨hn.trans rfl, hf.trans rfl, he.trans rfl, hx⟩

/-- The first successfully-extracted article of the three-candidate
scenario. -/
def C1d1 : ArticleData :=
  ⟨"https://e.com/news/a1", some "Title One!!", none, none, none,
   some (String.mk (List.replicate 120 'x'))⟩

/-- The third successfully-extracted article of the three-candidate
scenario. -/
def C1d3 : ArticleData :=
  ⟨"https://e.com/news/a3", some "Title Three", none, none, none,
   some (String.mk (List.replicate 120 'y'))⟩

/-- The concrete three-candidate sweep environment: one active registration,
discovery yields three fresh URLs, the second raises an extraction error,
the first and third extract and validate. -/
def C1env : CrawlEnv :=
  { registry := [⟨"https://e.com/", false, false, true⟩],
    discover := fun _ =>
      .ok ["https://e.com/news/a1", "https://e.com/news/a2", "https://e.com/news/a3"],
    extract := fun u =>
      if u == "https://e.com/news/a1" then .ok C1d1
      else if u == "https://e.com/news/a3" then .ok C1d3
      else .error "ExtractionError",
    summarize := fun _ _ => .ok "A short summary.",
    topicsOf := fun _ _ => .ok [],
    companiesOf := fun _ _ => .ok [],
    research := fun _ => .error "unused",
    now := 0 }

/-- C1 counterexample: in the concrete three-candidate scenario the sweep
returns `newArticles = 2` and `failedExtractions = 1` as claimed, but the
`errors` list is empty rather than holding one entry — the extraction
failure is only counted, never appended. -/
theorem C1_no_error_entry :
    (run_crawl C1env ⟨emptyDb, []⟩).1.new_articles = 2 ∧
    (run_crawl C1env ⟨emptyDb, []⟩).1.failed_extractions = 1 ∧
    (run_crawl C1env ⟨emptyDb, []⟩).1.errors = [] :=
  ⟨rfl, rfl, rfl⟩

/-- Witness for the C1 amended theorem at the concrete scenario. -/
theorem C1_partial_failure_isolation_witness :
    (run_crawl C1env ⟨emptyDb, []⟩).1.new_articles = 2 ∧
    (run_crawl C1env ⟨emptyDb, []⟩).1.failed_extractions = 1 ∧
    (run_crawl C1env ⟨emptyDb, []⟩).1.errors = [] ∧
    article_exists (run_crawl C1env ⟨emptyDb, []⟩).2.db "https://e.com/news/a3" = true :=
  C1_partial_failure_isolation C1env ⟨emptyDb, []⟩ ⟨"https://e.com/", false, false, true⟩
    "https://e.com/news/a1" "https://e.com/news/a2" "https://e.com/news/a3"
    "ExtractionError" C1d1 C1d3 rfl rfl rfl (by decide) (by decide)
    rfl rfl rfl rfl rfl rfl rfl rfl rfl rfl
    (fun c t => ⟨"A short summary.", rfl⟩)

theorem add_article_ok {st : DbState} {a : StoredArticle} {aid : Nat} {db' : DbState}
    (h : add_article st a = .ok (aid, db')) :
    db'.articles = st.articles ++ [{ a with id := st.articles.length + 1 }] := by
  unfold add_article at h
  split at h
  · cases h
  · injection h with h2
    injection h2 with h3 h4
    rw [← h4]

/-- The state carried by either constructor of a single-URL step result. -/
def exA : Except (String × UrlResult × CrawlState) (UrlResult × CrawlState) → CrawlState
  | .ok (_, st) => st
  | .error (_, _, st) => st

/-- The result dictionary carried by either constructor. -/
def exR : Except (String × UrlResult × CrawlState) (UrlResult × CrawlState) → UrlResult
  | .ok (r, _) => r
  | .error (_, r, _) => r

theorem singleTopicsLoop_pres (env : CrawlEnv) (aid : Nat) (names : List String) :
    ∀ (r : UrlResult) (st : CrawlState),
      (exA (singleTopicsLoop env aid names r st)).db.articles = st.db.articles ∧
      (exR (singleTopicsLoop env aid names r st)).success = r.success := by
  induction names with
  | nil => intro r st; exact ⟨rfl, rfl⟩
  | cons name rest ih =>
    intro r st
    have hstep : singleTopicsLoop env aid (name :: rest) r st =
        (if pyStrip name == "" then singleTopicsLoop env aid rest r st
        else
          match get_topic_by_name st.db name with
          | none =>
            match add_topic st.db name with
            | .error e => .error (e, r, st)
            | .ok (tid, db1) =>
              match link_article_topic false db1 aid tid 1 with
              | .error e => .error (e, r, { st with db := db1 })
              | .ok db2 =>
                singleTopicsLoop env aid rest
                  { r with topics := r.topics ++ [name] } { st with db := db2 }
          | some t =>
            match link_article_topic false st.db aid t.id 1 with
            | .error e => .error (e, r, st)
            | .ok db2 =>
              singleTopicsLoop env aid rest
                { r with topics := r.topics ++ [name] } { st with db := db2 }) := rfl
    rw [hstep]
    split
    · exact ih r st
    · split
      · next hg =>
        split
        · exact ⟨rfl, rfl⟩
        · next tid db1 hadd =>
          split
          · exact ⟨add_topic_ok_articles hadd, rfl⟩
          · next db2 hlink =>
            obtain ⟨p1, p2⟩ := ih { r with topics := r.topics ++ [name] }
              { st with db := db2 }
            refine ⟨?_, p2⟩
            rw [p1]
            show db2.articles = st.db.articles
            rw [link_topic_ok_articles hlink, add_topic_ok_articles hadd]
      · next t hg =>
        split
        · exact ⟨rfl, rfl⟩
        · next db2 hlink =>
          obtain ⟨p1, p2⟩ := ih { r with topics := r.topics ++ [name] }
            { st with db := db2 }
          refine ⟨?_, p2⟩
          rw [p1]
          exact link_topic_ok_articles hlink

theorem singleCompaniesLoop_pres (env : CrawlEnv) (aid : Nat) (names : List String) :
    ∀ (r : UrlResult) (st : CrawlState),
      (exA (singleCompaniesLoop env aid names r st)).db.articles = st.db.articles ∧
      (exR (singleCompaniesLoop env aid names r st)).success = r.success := by
  induction names with
  | nil => intro r st; exact ⟨rfl, rfl⟩
  | cons name rest ih =>
    intro r st
    have hstep : singleCompaniesLoop env aid (name :: rest) r st =
        (if pyStrip name == "" then singleCompaniesLoop env aid rest r st
        else
          match get_company_by_name st.db name with
          | none =>
            let st0 := logCall st (.research name)
            match env.research name with
            | .error e => .error (e, r, st0)
            | .ok ci =>
              match add_company st0.db ⟨0, name, ci.website_url, ci.summary,
                  ci.founded_year, some (ci.employee_count.getD "Unknown")⟩ with
              | .error e => .error (e, r, st0)
              | .ok (cid, db1) =>
                match link_article_company false db1 aid cid 1 with
                | .error e => .error (e, r, { st0 with db := db1 })
                | .ok db2 =>
                  singleCompaniesLoop env aid rest
                    { r with companies := r.companies ++ [name] } { st0 with db := db2 }
          | some comp =>
            match link_article_company false st.db aid comp.id 1 with
            | .error e => .error (e, r, st)
            | .ok db2 =>
              singleCompaniesLoop env aid rest
                { r with companies := r.companies ++ [name] } { st with db := db2 }) := rfl
    rw [hstep]
    split
    · exact ih r st
    · split
      · next hg =>
        dsimp only
        split
        · exact ⟨rfl, rfl⟩
        · next ci hres =>
          split
          · exact ⟨rfl, rfl⟩
          · next cid db1 hadd =>
            split
            · exact ⟨add_company_ok_articles hadd, rfl⟩
            · next db2 hlink =>
              obtain ⟨p1, p2⟩ := ih { r with companies := r.companies ++ [name] }
                { logCall st (.research name) with db := db2 }
              refine ⟨?_, p2⟩
              rw [p1]
              show db2.articles = st.db.articles
              rw [link_company_ok_articles hlink, add_company_ok_articles hadd]
              rfl
      · next comp hg =>
        split
        · exact ⟨rfl, rfl⟩
        · next db2 hlink =>
          obtain ⟨p1, p2⟩ := ih { r with companies := r.companies ++ [name] }
            { st with db := db2 }
          refine ⟨?_, p2⟩
          rw [p1]
          exact link_company_ok_articles hlink

theorem singleEnrich_pres (env : CrawlEnv) (ad : ArticleData) (tf cf : Bool)
    (aid : Nat) (r1 : UrlResult) (st3 : CrawlState) :
    (exA (singleEnrich env ad tf cf aid r1 st3)).db.articles = st3.db.articles ∧
    (exR (singleEnrich env ad tf cf aid r1 st3)).success = r1.success := by
  unfold singleEnrich
  cases hT : (tf && pyTruthy ad.content) with
  | false =>
    simp only [hT, Bool.false_eq_true, if_false]
    cases hC : (cf && pyTruthy ad.content) with
    | false => simp only [hC, Bool.false_eq_true, if_false]; exact ⟨rfl, rfl⟩
    | true =>
      simp only [hC, if_true]
      cases hco : env.companiesOf (ad.content.getD "") (pyOr ad.title "") with
      | error e => simp only [hco]; exact ⟨rfl, rfl⟩
      | ok names =>
        simp only [hco]
        exact singleCompaniesLoop_pres env aid names r1 _
  | true =>
    simp only [hT, if_true]
    cases hto : env.topicsOf (ad.content.getD "") (pyOr ad.title "") with
    | error e => simp only [hto]; exact ⟨rfl, rfl⟩
    | ok names =>
      simp only [hto]
      obtain ⟨p1, p2⟩ := singleTopicsLoop_pres env aid names r1
        (logCall st3 (.topics (ad.content.getD "") (pyOr ad.title "")))
      cases hl : singleTopicsLoop env aid names r1
          (logCall st3 (.topics (ad.content.getD "") (pyOr ad.title ""))) with
      | error p =>
        obtain ⟨e, r', st'⟩ := p
        rw [hl] at p1 p2
        exact ⟨p1, p2⟩
      | ok out =>
        obtain ⟨r2, st5⟩ := out
        rw [hl] at p1 p2
        cases hC : (cf && pyTruthy ad.content) with
        | false => simp only [hC, Bool.false_eq_true, if_false]; exact ⟨p1, p2⟩
        | true =>
          simp only [hC, if_true]
          cases hco : env.companiesOf (ad.content.getD "") (pyOr ad.title "") with
          | error e => simp only [hco]; exact ⟨p1, p2⟩
          | ok names2 =>
            simp only [hco]
            obtain ⟨q1, q2⟩ := singleCompaniesLoop_pres env aid names2 r2
              (logCall st5 (.companies (ad.content.getD "") (pyOr ad.title "")))
            refine ⟨?_, q2.trans p2⟩
            rw [q1]
            exact p1

theorem single_existing (env : CrawlEnv) (url : String) (ft fc : Bool)
    (st : CrawlState) (hex : article_exists st.db url = true) :
    crawl_single_url env url ft fc st =
      (⟨url, false, none, [], [], some "Article already exists"⟩, st) := by
  unfold crawl_single_url crawl_single_attempt
  simp only [hex, if_true]

theorem enrich_handler (env : CrawlEnv) (ad : ArticleData) (tf cf : Bool)
    (aid : Nat) (r1 : UrlResult) (st3 : CrawlState) :
    ((match singleEnrich env ad tf cf aid r1 st3 with
      | .ok out => out
      | .error (e, r, st') =>
        ({ r with error := some e }, st')) : UrlResult × CrawlState).2.db.articles =
      st3.db.articles ∧
    ((match singleEnrich env ad tf cf aid r1 st3 with
      | .ok out => out
      | .error (e, r, st') =>
        ({ r with error := some e }, st')) : UrlResult × CrawlState).1.success =
      r1.success := by
  obtain ⟨p1, p2⟩ := singleEnrich_pres env ad tf cf aid r1 st3
  cases hq : singleEnrich env ad tf cf aid r1 st3 with
  | ok out =>
    rw [hq] at p1 p2
    exact ⟨p1, p2⟩
  | error p =>
    obtain ⟨e, r', st'⟩ := p
    rw [hq] at p1 p2
    exact ⟨p1, p2⟩

theorem single_add_nocontent (env : CrawlEnv) (url : String) (ft fc : Bool)
    (st0 : CrawlState) (ad : ArticleData) (aid : Nat) (db3 : DbState)
    (hA : article_exists st0.db url = false)
    (hE : env.extract url = .ok ad)
    (hV : is_valid_article (adRecord ad) = .ok true)
    (hc : pyTruthy ad.content = false)
    (hAd : add_article st0.db ⟨0, ad.url, ad.title, ad.author, ad.description,
        ad.pubDate, env.now, none, ad.content⟩ = .ok (aid, db3)) :
    (crawl_single_url env url ft fc st0).1.success = true ∧
    (crawl_single_url env url ft fc st0).2.db.articles = db3.articles := by
  unfold crawl_single_url crawl_single_attempt
  simp only [hA, Bool.false_eq_true, if_false, hE, hV, hc, hAd]
  exact ⟨(enrich_handler env ad ft fc aid _ _).2.trans rfl,
         (enrich_handler env ad ft fc aid _ _).1.trans rfl⟩

theorem single_add_content (env : CrawlEnv) (url : String) (ft fc : Bool)
    (st0 : CrawlState) (ad : ArticleData) (s : String) (aid : Nat) (db3 : DbState)
    (hA : article_exists st0.db url = false)
    (hE : env.extract url = .ok ad)
    (hV : is_valid_article (adRecord ad) = .ok true)
    (hc : pyTruthy ad.content = true)
    (hs : env.summarize (ad.content.getD "") (pyOr ad.title "") = .ok s)
    (hAd : add_article
        (logCall st0 (.summarize (ad.content.getD "") (pyOr ad.title ""))).db
        ⟨0, ad.url, ad.title, ad.author, ad.description, ad.pubDate, env.now,
         some (if s == "" then "Summary generation failed" else s), ad.content⟩ =
      .ok (aid, db3)) :
    (crawl_single_url env url ft fc st0).1.success = true ∧
    (crawl_single_url env url ft fc st0).2.db.articles = db3.articles := by
  unfold crawl_single_url crawl_single_attempt
  simp only [hA, Bool.false_eq_true, if_false, hE, hV, hc, if_true, hs, hAd]
  exact ⟨(enrich_handler env ad ft fc aid _ _).2.trans rfl,
         (enrich_handler env ad ft fc aid _ _).1.trans rfl⟩

theorem single_success_cases (env : CrawlEnv) (url : String) (ft fc : Bool)
    (st0 : CrawlState)
    (h : (crawl_single_url env url ft fc st0).1.success = true) :
    article_exists st0.db url = false ∧
    ∃ (ad : ArticleData) (art : StoredArticle),
      env.extract url = .ok ad ∧
      (crawl_single_url env url ft fc st0).2.db.articles =
        st0.db.articles ++ [art] ∧
      art.url = ad.url := by
  unfold crawl_single_url crawl_single_attempt at h
  cases hA : article_exists st0.db url with
  | true => simp only [hA, if_true, Bool.false_eq_true] at h
  | false =>
    refine ⟨rfl, ?_⟩
    simp only [hA, Bool.false_eq_true, if_false] at h
    cases hE : env.extract url with
    | error e => simp only [hE, Bool.false_eq_true] at h
    | ok ad =>
      simp only [hE] at h
      cases hV : is_valid_article (adRecord ad) with
      | error e => simp only [hV, Bool.false_eq_true] at h
      | ok b =>
        cases b with
        | false => simp only [hV, Bool.false_eq_true] at h
        | true =>
          simp only [hV] at h
          cases hc : pyTruthy ad.content with
          | false =>
            cases hAd : add_article st0.db
                ⟨0, ad.url, ad.title, ad.author, ad.description, ad.pubDate,
                 env.now, none, ad.content⟩ with
            | error e =>
              simp only [hc, Bool.false_eq_true, if_false, hAd] at h
            | ok p =>
              obtain ⟨aid, db3⟩ := p
              exact ⟨ad, _, rfl,
                (single_add_nocontent env url ft fc st0 ad aid db3
                    hA hE hV hc hAd).2.trans (add_article_ok hAd), rfl⟩
          | true =>
            cases hs : env.summarize (ad.content.getD "") (pyOr ad.title "") with
            | error e =>
              simp only [hc, if_true, hs, Bool.false_eq_true] at h
            | ok s =>
              cases hAd : add_article
                  (logCall st0 (.summarize (ad.content.getD "") (pyOr ad.title ""))).db
                  ⟨0, ad.url, ad.title, ad.author, ad.description, ad.pubDate, env.now,
                   some (if s == "" then "Summary generation failed" else s),
                   ad.content⟩ with
              | error e =>
                simp only [hc, if_true, hs, hAd, Bool.false_eq_true] at h
              | ok p =>
                obtain ⟨aid, db3⟩ := p
                exact ⟨ad, _, rfl,
                  (single_add_content env url ft fc st0 ad s aid db3
                      hA hE hV hc hs hAd).2.trans (add_article_ok hAd), rfl⟩

/-- C3: when a `crawl_single_url` call succeeds (the article is persisted),
a second call for the same URL sees the URL in storage and returns
immediately with error "Article already exists", `success = false` and no
article id, performing no insert and no LLM call (the state, including the
ghost LLM log, is unchanged), and storage holds exactly one record for the
URL. The extractor invariant that the returned record carries the requested
URL is a hypothesis, discharged by the extractor embedding. -/
theorem C3_idempotent_ingestion (env : CrawlEnv) (url : String) (ft fc : Bool)
    (st0 : CrawlState)
    (hurl : ∀ u d, env.extract u = .ok d → d.url = u)
    (h : (crawl_single_url env url ft fc st0).1.success = true) :
    crawl_single_url env url ft fc (crawl_single_url env url ft fc st0).2 =
      (⟨url, false, none, [], [], some "Article already exists"⟩,
        (crawl_single_url env url ft fc st0).2) ∧
    ((crawl_single_url env url ft fc st0).2.db.articles.filter
        (fun a => a.url == url)).length = 1 ∧
    (crawl_single_url env url ft fc
        (crawl_single_url env url ft fc st0).2).2.llmLog =
      (crawl_single_url env url ft fc st0).2.llmLog := by
  obtain ⟨hA, ad, art, hE, harts, hartu⟩ := single_success_cases env url ft fc st0 h
  have hadu : ad.url = url := hurl url ad hE
  have hex1 : article_exists (crawl_single_url env url ft fc st0).2.db url = true := by
    unfold article_exists
    rw [harts, List.any_append]
    simp [hartu, hadu]
  have h2 := single_existing env url ft fc (crawl_single_url env url ft fc st0).2 hex1
  refine ⟨h2, ?_, by rw [h2]⟩
  rw [harts, List.filter_append]
  have hnil : st0.db.articles.filter (fun a => a.url == url) = [] :=
    List.filter_eq_nil_iff.mpr (List.any_eq_false.mp hA)
  rw [hnil]
  simp [hartu, hadu]

/-- Witness for C3 at the concrete single-URL environment. -/
theorem C3_idempotent_ingestion_witness :
    crawl_single_url C1env "https://e.com/news/a1" false false
        (crawl_single_url C1env "https://e.com/news/a1" false false ⟨emptyDb, []⟩).2 =
      (⟨"https://e.com/news/a1", false, none, [], [], some "Article already exists"⟩,
        (crawl_single_url C1env "https://e.com/news/a1" false false ⟨emptyDb, []⟩).2) ∧
    ((crawl_single_url C1env "https://e.com/news/a1" false false
        ⟨emptyDb, []⟩).2.db.articles.filter
        (fun a => a.url == "https://e.com/news/a1")).length = 1 ∧
    (crawl_single_url C1env "https://e.com/news/a1" false false
        (crawl_single_url C1env "https://e.com/news/a1" false false
          ⟨emptyDb, []⟩).2).2.llmLog =
      (crawl_single_url C1env "https://e.com/news/a1" false false ⟨emptyDb, []⟩).2.llmLog :=
  C3_idempotent_ingestion C1env "https://e.com/news/a1" false false ⟨emptyDb, []⟩
    (by
      intro u d hd
      unfold C1env at hd
      dsimp only at hd
      split at hd
      · next hu =>
        injection hd with h1
        rw [← h1, eq_of_beq hu]
        rfl
      · split at hd
        · next hu2 =>
          injection hd with h1
          rw [← h1, eq_of_beq hu2]
          rfl
        · cases hd)
    rfl

/-- C2 amended: for a fresh candidate whose extraction and validation
succeed and whose body text is non-empty, the summarize call happens
before persistence — a summarize exception prevents the article from being
stored (the single-URL call reports the error with nothing persisted, and
the sweep's per-candidate handler appends the error and counts a failed
extraction), while a summarize result that returns (empty or not) leads to
the article being persisted with the empty result replaced by the literal
"Summary generation failed". -/
theorem C2_summary_enrichment_order (env : CrawlEnv) (url : String) (ft fc : Bool)
    (st0 : CrawlState) (ad : ArticleData) (e s : String)
    (hex : article_exists st0.db url = false)
    (hexd : article_exists st0.db ad.url = false)
    (hE : env.extract url = .ok ad)
    (hV : is_valid_article (adRecord ad) = .ok true)
    (hc : pyTruthy ad.content = true) :
    (env.summarize (ad.content.getD "") (pyOr ad.title "") = .error e →
      crawl_single_url env url ft fc st0 =
        ((⟨url, false, none, [], [], some e⟩ : UrlResult),
          logCall st0 (.summarize (ad.content.getD "") (pyOr ad.title "")))) ∧
    (env.summarize (ad.content.getD "") (pyOr ad.title "") = .ok s →
      (crawl_single_url env url ft fc st0).1.success = true ∧
      (crawl_single_url env url ft fc st0).2.db.articles = st0.db.articles ++
        [⟨st0.db.articles.length + 1, ad.url, ad.title, ad.author, ad.description,
          ad.pubDate, env.now,
          some (if s == "" then "Summary generation failed" else s), ad.content⟩]) ∧
    (∀ (entry : RegistryEntry) (res : RunResults),
      env.summarize (ad.content.getD "") (pyOr ad.title "") = .error e →
      candidate_step env entry (res, st0) url =
        ({ res with
            errors := res.errors ++
              ["Error processing article " ++ url ++ ": " ++ e],
            failed_extractions := res.failed_extractions + 1 },
          logCall st0 (.summarize (ad.content.getD "") (pyOr ad.title "")))) := by
  refine ⟨?_, ?_, ?_⟩
  · intro hserr
    unfold crawl_single_url crawl_single_attempt
    simp only [hex, Bool.false_eq_true, if_false, hE, hV, hc, if_true, hserr]
  · intro hsok
    have hAd : add_article
        (logCall st0 (.summarize (ad.content.getD "") (pyOr ad.title ""))).db
        ⟨0, ad.url, ad.title, ad.author, ad.description, ad.pubDate, env.now,
         some (if s == "" then "Summary generation failed" else s), ad.content⟩ =
        .ok (st0.db.articles.length + 1,
          { st0.db with articles := st0.db.articles ++
            [⟨st0.db.articles.length + 1, ad.url, ad.title, ad.author, ad.description,
              ad.pubDate, env.now,
              some (if s == "" then "Summary generation failed" else s),
              ad.content⟩] }) := by
      unfold add_article
      simp only [show article_exists
        (logCall st0 (.summarize (ad.content.getD "") (pyOr ad.title ""))).db
        (StoredArticle.url ⟨0, ad.url, ad.title, ad.author, ad.description,
          ad.pubDate, env.now,
          some (if s == "" then "Summary generation failed" else s), ad.content⟩) =
        false from hexd, Bool.false_eq_true, if_false]
      rfl
    obtain ⟨w1, w2⟩ := single_add_content env url ft fc st0 ad s _ _
      hex hE hV hc hsok hAd
    exact ⟨w1, w2.trans rfl⟩
  · intro entry res hserr
    unfold candidate_step candidate_attempt
    simp only [hex, Bool.false_eq_true, if_false, hE, hV, hc, if_true, hserr]

/-- The single-URL environment whose enrichment summarize call raises. -/
def C2env : CrawlEnv := { C1env with summarize := fun _ _ => .error "LLM timeout" }

/-- C2 counterexample: with a fresh URL whose extraction and validation
succeed, a summarize exception leaves storage without the article
(`articles = []`, `success = false`), even though the summarize call was
made (it is in the LLM log) — refuting both "persistence happens before the
summarize call" and "a summarize failure never prevents the article from
being stored". -/
theorem C2_summarize_failure_blocks_persistence :
    (crawl_single_url C2env "https://e.com/news/a1" false false
        ⟨emptyDb, []⟩).1.success = false ∧
    (crawl_single_url C2env "https://e.com/news/a1" false false
        ⟨emptyDb, []⟩).1.error = some "LLM timeout" ∧
    (crawl_single_url C2env "https://e.com/news/a1" false false
        ⟨emptyDb, []⟩).2.db.articles = [] ∧
    (crawl_single_url C2env "https://e.com/news/a1" false false
        ⟨emptyDb, []⟩).2.llmLog =
      [.summarize (String.mk (List.replicate 120 'x')) "Title One!!"] :=
  ⟨rfl, rfl, rfl, rfl⟩

/-- Witness for the C2 amended theorem: the raising summarize at `C2env`
and the returning summarize at `C1env`. -/
theorem C2_summary_enrichment_order_witness :
    (crawl_single_url C2env "https://e.com/news/a1" false false ⟨emptyDb, []⟩ =
      ((⟨"https://e.com/news/a1", false, none, [], [], some "LLM timeout"⟩ : UrlResult),
        logCall ⟨emptyDb, []⟩
          (.summarize (C1d1.content.getD "") (pyOr C1d1.title "")))) ∧
    ((crawl_single_url C1env "https://e.com/news/a1" false false
        ⟨emptyDb, []⟩).1.success = true ∧
      (crawl_single_url C1env "https://e.com/news/a1" false false
          ⟨emptyDb, []⟩).2.db.articles =
        (⟨emptyDb, []⟩ : CrawlState).db.articles ++
        [⟨(⟨emptyDb, []⟩ : CrawlState).db.articles.length + 1, C1d1.url, C1d1.title,
          C1d1.author, C1d1.description, C1d1.pubDate, C1env.now,
          some (if "A short summary." == "" then "Summary generation failed"
            else "A short summary."), C1d1.content⟩]) ∧
    (candidate_step C2env ⟨"https://e.com/", false, false, true⟩
        (⟨1, 0, 0, 0, 0, 0, []⟩, ⟨emptyDb, []⟩) "https://e.com/news/a1" =
      ({ (⟨1, 0, 0, 0, 0, 0, []⟩ : RunResults) with
          errors := [] ++
            ["Error processing article https://e.com/news/a1: LLM timeout"],
          failed_extractions := 0 + 1 },
        logCall ⟨emptyDb, []⟩
          (.summarize (C1d1.content.getD "") (pyOr C1d1.title "")))) :=
  ⟨(C2_summary_enrichment_order C2env "https://e.com/news/a1" false false
      ⟨emptyDb, []⟩ C1d1 "LLM timeout" "" rfl rfl rfl rfl rfl).1 rfl,
   (C2_summary_enrichment_order C1env "https://e.com/news/a1" false false
      ⟨emptyDb, []⟩ C1d1 "unused" "A short summary." rfl rfl rfl rfl rfl).2.1 rfl,
   (C2_summary_enrichment_order C2env "https://e.com/news/a1" false false
      ⟨emptyDb, []⟩ C1d1 "LLM timeout" "" rfl rfl rfl rfl rfl).2.2
      ⟨"https://e.com/", false, false, true⟩ ⟨1, 0, 0, 0, 0, 0, []⟩ rfl⟩
